/-
Verification of the email classification and sync pipeline of the
job-application-process CRM.

The development shallowly embeds the Python sources under `crm/services/`
(`email_parser.py`, `email_processor.py`, `ai_email_analyzer.py`,
`email_sync_service.py`) and the relevant model fields of `crm/models.py`.

Conventions of the embedding:
* Python floats holding confidence scores are modelled as rationals (`ℚ`);
  all confidences in the source are small decimal literals, exactly
  representable.
* Python `re` patterns are modelled by a small regular-expression AST `Re`
  together with a backtracking matcher whose alternative ordering mirrors
  CPython's `re` engine (leftmost search position, left alternative first,
  greedy repetitions prefer longest, lazy repetitions prefer shortest).
  Every repetition occurring in the source patterns ranges over a single
  character class, which the AST captures with the dedicated constructor
  `repCls`; this makes the matcher structurally terminating.
* Library and I/O effects (the Gmail fetch, the OpenAI call, `json.loads`,
  `dateutil` date parsing, the Django ORM lookups, the wall clock) are
  modelled as explicit oracle parameters; theorems quantify over them.
* Instants of time are modelled as integers (seconds); `timedelta(hours=1)`
  becomes `3600`.
-/
import Mathlib

/-! ## Python string helpers -/

/-- Python `\s` over ASCII (the inputs of interest are ASCII). -/
def pySpace (c : Char) : Bool :=
  c == ' ' || c == '\t' || c == '\n' || c == '\x0d' || c == '\x0c' || c == '\x0b'

/-- Python `str.lower` (ASCII). -/
def pyLower (s : String) : String := String.mk (s.data.map Char.toLower)

/-- Python `str.strip()` on a char list. -/
def stripList (l : List Char) : List Char :=
  ((l.dropWhile (fun c => pySpace c)).reverse.dropWhile (fun c => pySpace c)).reverse

/-- Python `str.strip()` (ASCII whitespace). -/
def pyStrip (s : String) : String := String.mk (stripList s.data)

/-- Python `str.startswith`. -/
def pyStartsWith (s pre : String) : Bool := pre.data.isPrefixOf s.data

/-- Python `str.endswith`. -/
def pyEndsWith (s suf : String) : Bool := suf.data.reverse.isPrefixOf s.data.reverse

/-- Python `len(s)`. -/
def pyLen (s : String) : Nat := s.data.length

/-- Python `s[:n]`. -/
def pyTake (n : Nat) (s : String) : String := String.mk (s.data.take n)

/-- Python `str.split(sep)` for a single-character separator. -/
def pySplitChar (sep : Char) (s : String) : List String :=
  (s.data.splitOn sep).map String.mk

/-- Python `str.title()` restricted to the shapes used by the source
(single words of letters, digits and hyphens): a letter that follows a
non-letter is uppercased, every other letter is lowercased. -/
def pyTitle (s : String) : String :=
  String.mk ((s.data.foldl
    (fun (acc : List Char × Bool) c =>
      if c.isAlpha then
        (acc.1 ++ [if acc.2 then c.toLower else c.toUpper], true)
      else
        (acc.1 ++ [c], false))
    ([], false)).1)

/-- Truthiness of an optional Python string (`None` and `''` are falsy). -/
def truthyS : Option String → Bool
  | none => false
  | some s => s ≠ ""

/-! ## A small regular-expression engine

The AST covers exactly the constructs appearing in the source patterns.
Repetitions (`*`, `+`, `+?`, `{m,n}`, `{m,n}?`) only ever range over a
single character class in the source, captured by `repCls`.  At most one
capturing group appears per pattern, captured by `grp`. -/

inductive Re where
  /-- empty pattern -/
  | eps
  /-- a single character matching the predicate -/
  | cls (f : Char → Bool)
  /-- concatenation -/
  | cat (a b : Re)
  /-- alternation; the left branch is preferred, as in CPython -/
  | alt (a b : Re)
  /-- greedy `?` -/
  | optG (a : Re)
  /-- repetition of a character class: at least `lo` and at most `hi`
      occurrences; `lazy` selects shortest-first backtracking -/
  | repCls (f : Char → Bool) (lo : Nat) (hi : Option Nat) (lazy : Bool)
  /-- the (single) capturing group -/
  | grp (a : Re)
  /-- `^` without `re.MULTILINE`: start of the string -/
  | bolS
  /-- `$` without `re.MULTILINE`: end of string or before a final newline -/
  | eolS
  /-- `$` with `re.MULTILINE`: end of string or before any newline -/
  | eolM
  /-- `\b` word boundary -/
  | wb

namespace Re

/-- First defined value of `f` over the list. -/
def firstSome (f : Nat → Option α) : List Nat → Option α
  | [] => none
  | n :: ns =>
    match f n with
    | some r => some r
    | none => firstSome f ns

/-- Length of the longest run of characters satisfying `f`, capped at `hi`. -/
def capRun (f : Char → Bool) : List Char → Option Nat → Nat
  | [], _ => 0
  | c :: r, hi =>
    match hi with
    | some 0 => 0
    | some (m + 1) => if f c then capRun f r (some m) + 1 else 0
    | none => if f c then capRun f r none + 1 else 0

/-- The character preceding the position reached after consuming `n`
characters of `s`, given the character `prev` preceding `s`. -/
def prevAfter (prev : Option Char) (s : List Char) (n : Nat) : Option Char :=
  match n with
  | 0 => prev
  | _ => (s.take n).getLast?

/-- Is the optional character a word character (`\w`)? -/
def isWordOpt : Option Char → Bool
  | none => false
  | some c => c.isAlphanum || c == '_'

/-- Backtracking matcher in continuation-passing style.  `prev` is the
character just before the current position (for `^`, `\b`), `s` the rest of
the input, `cap` the value of group 1 so far.  The continuation receives the
updated position state; the first continuation success wins, which yields
CPython's backtracking order. -/
def mtch : Re → Option Char → List Char → Option (List Char) →
    (Option Char → List Char → Option (List Char) → Option α) → Option α
  | .eps, prev, s, cap, k => k prev s cap
  | .cls f, _, s, cap, k =>
    match s with
    | [] => none
    | c :: rest => if f c then k (some c) rest cap else none
  | .cat a b, prev, s, cap, k =>
    mtch a prev s cap (fun p' s' c' => mtch b p' s' c' k)
  | .alt a b, prev, s, cap, k =>
    match mtch a prev s cap k with
    | some r => some r
    | none => mtch b prev s cap k
  | .optG a, prev, s, cap, k =>
    match mtch a prev s cap k with
    | some r => some r
    | none => k prev s cap
  | .repCls f lo hi lz, prev, s, cap, k =>
    let run := capRun f s hi
    if run < lo then none
    else
      let base := List.range' lo (run + 1 - lo)
      let cand := if lz then base else base.reverse
      firstSome (fun n => k (prevAfter prev s n) (s.drop n) cap) cand
  | .grp a, prev, s, cap, k =>
    mtch a prev s cap (fun p' s' _ => k p' s' (some (s.take (s.length - s'.length))))
  | .bolS, prev, s, cap, k => if prev.isNone then k prev s cap else none
  | .eolS, prev, s, cap, k =>
    match s with
    | [] => k prev s cap
    | ['\n'] => k prev s cap
    | _ => none
  | .eolM, prev, s, cap, k =>
    match s with
    | [] => k prev s cap
    | c :: _ => if c == '\n' then k prev s cap else none
  | .wb, prev, s, cap, k =>
    if isWordOpt prev != isWordOpt s.head? then k prev s cap else none

/-- Result of a successful `re.search`: start index, the whole match
(group 0), and group 1 if the pattern captured one. -/
structure Hit where
  start : Nat
  g0 : List Char
  g1 : Option (List Char)

/-- Try to match at the current position, else advance one character:
`re.search`'s leftmost-position scan. -/
def searchAux (r : Re) (prev : Option Char) (s : List Char) (idx : Nat) :
    Option Hit :=
  match mtch r prev s none (fun _ rem cp => some (rem, cp)) with
  | some (rem, cp) => some ⟨idx, s.take (s.length - rem.length), cp⟩
  | none =>
    match s with
    | [] => none
    | c :: rest => searchAux r (some c) rest (idx + 1)

/-- Python `re.search(r, s)`. -/
def search (r : Re) (s : String) : Option Hit := searchAux r none s.data 0

/-- Group 1 of `re.search`, as a string. -/
def searchG1 (r : Re) (s : String) : Option String :=
  match search r s with
  | some h =>
    match h.g1 with
    | some g => some (String.mk g)
    | none => none
  | none => none

/-- Group 0 of `re.search`, as a string. -/
def searchG0 (r : Re) (s : String) : Option String :=
  match search r s with
  | some h => some (String.mk h.g0)
  | none => none

/-- Does `re.search` succeed? -/
def isMatch (r : Re) (s : String) : Bool := (search r s).isSome

/-- All non-overlapping matches, scanning left to right and resuming after
each match: Python `re.findall` for patterns without groups.  The patterns
this is used on cannot match the empty string; an empty match advances one
character, as CPython does. -/
def findAllAux (fuel : Nat) (r : Re) (prev : Option Char) (s : List Char) :
    List (List Char) :=
  match fuel with
  | 0 => []
  | fuel + 1 =>
    match searchAux r prev s 0 with
    | none => []
    | some h =>
      let consumed := h.start + h.g0.length
      let step := if h.g0.isEmpty then consumed + 1 else consumed
      let rest := s.drop step
      let p' := (s.take step).getLast?
      let p'' := if step == 0 then prev else p'
      h.g0 :: findAllAux fuel r p'' rest

/-- Python `re.findall(r, s)` (group 0 of each match). -/
def findAll (r : Re) (s : String) : List String :=
  (findAllAux (s.data.length + 1) r none s.data).map String.mk

/-- Python `re.sub(r, repl, s)`: replace every non-overlapping match. -/
def subAllAux (fuel : Nat) (r : Re) (repl : List Char) (prev : Option Char)
    (s : List Char) : List Char :=
  match fuel with
  | 0 => s
  | fuel + 1 =>
    match searchAux r prev s 0 with
    | none => s
    | some h =>
      let consumed := h.start + h.g0.length
      let step := if h.g0.isEmpty then consumed + 1 else consumed
      let kept := if h.g0.isEmpty then s.take (h.start + 1) else s.take h.start
      let rest := s.drop step
      let p' := (s.take step).getLast?
      let p'' := if step == 0 then prev else p'
      kept ++ repl ++ subAllAux fuel r repl p'' rest

/-- Python `re.sub(r, repl, s)`. -/
def subAll (r : Re) (repl : String) (s : String) : String :=
  String.mk (subAllAux (s.data.length + 1) r repl.data none s.data)

/-- `s[:match.start()]` for the first match, `s` itself when there is no
match.  This is also `re.split(r, s)[0]` for the group-free patterns it is
used on. -/
def beforeFirst (r : Re) (s : String) : String :=
  match search r s with
  | some h => String.mk (s.data.take h.start)
  | none => s

/-! ### Pattern combinators (all literals case-insensitive, matching the
`re.IGNORECASE` flag used throughout the source) -/

/-- One character, case-insensitively. -/
def ciCh (c : Char) : Re := .cls (fun x => x.toLower == c.toLower)

/-- One exact character. -/
def exCh (c : Char) : Re := .cls (fun x => x == c)

/-- Concatenation of a list of patterns. -/
def seqList (l : List Re) : Re := l.foldr .cat .eps

/-- Case-insensitive literal string. -/
def lit (w : String) : Re := seqList (w.data.map ciCh)

/-- Alternation of a list of patterns (first preferred). -/
def alts : List Re → Re
  | [] => .eps
  | [r] => r
  | r :: rs => .alt r (alts rs)

/-- Alternation of case-insensitive literals. -/
def litAlts (ws : List String) : Re := alts (ws.map lit)

/-- Character in the given string. -/
def chIn (cs : String) : Re := .cls (fun c => cs.data.contains c)

end Re

/-! ## EmailParser (`crm/services/email_parser.py`)

Dates flowing through `dateutil.parser.parse(...).strftime('%Y-%m-%d')` are
modelled by an oracle `du : String → Option String` (`none` models a
`ValueError`/`TypeError` from the library). -/

namespace EmailParser

open Re

/-- `[A-Z]` under `re.IGNORECASE`: any ASCII letter. -/
def clsUpperCI (c : Char) : Bool := c.isAlpha

/-- `[a-zA-Z0-9\s&.,!-]`. -/
def clsCompany (c : Char) : Bool :=
  c.isAlpha || c.isDigit || pySpace c || "&.,!-".data.contains c

/-- `[a-zA-Z\s&/()-,]`.  CPython parses the trailing `)-,` as the range
`')'..','`, i.e. the characters `) * + ,` (and no literal hyphen). -/
def clsPosition (c : Char) : Bool :=
  c.isAlpha || pySpace c || "&/(".data.contains c ||
    (')'.val ≤ c.val && c.val ≤ ','.val)

/-- `[A-Za-z0-9\s,/\-+]`. -/
def clsStack (c : Char) : Bool :=
  c.isAlpha || c.isDigit || pySpace c || ",/-+".data.contains c

/-- `\w`. -/
def clsWord (c : Char) : Bool := c.isAlphanum || c == '_'

/-- `\d`. -/
def clsDigit (c : Char) : Bool := c.isDigit

/-- `[:\s]`. -/
def clsColonSpace (c : Char) : Bool := c == ':' || pySpace c

/-- `\s*` -/
def spStar : Re := .repCls pySpace 0 none false

/-- `\s+` -/
def spPlus : Re := .repCls pySpace 1 none false

/-- `[:\s]+` -/
def colonSpacePlus : Re := .repCls clsColonSpace 1 none false

/-- ASCII apostrophe (appears in one rejection pattern). -/
def apoS : String := String.mk ['\x27']

/-- `thank(?:s| you)` -/
def thankPre : Re := .cat (lit "thank") (.alt (lit "s") (lit " you"))

/-- `APPLICATION_PATTERNS` -/
def APPLICATION_PATTERNS : List Re := [
  seqList [thankPre, lit " for ", .optG (lit "your "), lit "application"],
  seqList [thankPre, lit " for applying"],
  lit "we received your application",
  seqList [lit "application ", .optG (lit "has been "), lit "submitted"],
  seqList [lit "your application ", .optG (lit "has been "), lit "received"]]

/-- `REJECTION_PATTERNS` -/
def REJECTION_PATTERNS : List Re := [
  lit ("we" ++ apoS ++ "ve decided to move forward"),
  lit "unfortunately",
  lit "we will not be moving forward",
  lit "we have chosen to pursue"]

/-- `ASSESSMENT_PATTERNS` -/
def ASSESSMENT_PATTERNS : List Re := [
  lit "assessment",
  lit "take-home",
  lit "coding challenge",
  lit "technical evaluation"]

/-- `PERSONAL_DOMAINS` -/
def PERSONAL_DOMAINS : List String :=
  ["gmail", "outlook", "yahoo", "hotmail", "icloud", "aol"]

/-- `JOB_BOARD_DOMAINS` -/
def JOB_BOARD_DOMAINS : List String :=
  ["indeed", "myworkday", "linkedin", "glassdoor", "ziprecruiter",
   "monster", "careerbuilder", "simplyhired", "snagajob", "dice",
   "naukri", "shine", "timesjobs", "naukrigulf", "jobstreet"]

/-- `_matches_patterns`: does any pattern match (`re.search`, case handled
inside the patterns)? -/
def matches_patterns (text : String) (patterns : List Re) : Bool :=
  patterns.any (fun p => Re.isMatch p text)

/-- `([A-Z][a-zA-Z0-9\s&.,!-]+?)` -/
def compGrp : Re := .grp (.cat (.cls clsUpperCI) (.repCls clsCompany 1 none true))

/-- `([A-Z][a-zA-Z0-9\s&.,!-]{2,30}?)` -/
def compGrpShort : Re :=
  .grp (.cat (.cls clsUpperCI) (.repCls clsCompany 2 (some 30) true))

/-- `(?:\s*[!.,]|\s+Hi|\s+Dear|$|\n| -)` -/
def compEnd1 : Re := alts [
  .cat spStar (chIn "!.,"), .cat spPlus (lit "Hi"), .cat spPlus (lit "Dear"),
  .eolM, exCh '\n', lit " -"]

/-- `(?: (?:has been|was)|\.|,|$|\n| -)` -/
def compEnd2 : Re := alts [
  .cat (exCh ' ') (litAlts ["has been", "was"]),
  exCh '.', exCh ',', .eolM, exCh '\n', lit " -"]

/-- `(?: (?:has been|was) received|\.|,|$|\n| -)` -/
def compEnd3 : Re := alts [
  seqList [exCh ' ', litAlts ["has been", "was"], lit " received"],
  exCh '.', exCh ',', .eolM, exCh '\n', lit " -"]

/-- `(?:!|\.|,|$|\n)` -/
def compEnd4 : Re := alts [exCh '!', exCh '.', exCh ',', .eolM, exCh '\n']

/-- `(?:\.|,|$|\n)` -/
def compEnd5 : Re := alts [exCh '.', exCh ',', .eolM, exCh '\n']

/-- The 15 company-extraction patterns of `_extract_company_from_content`,
in source order. -/
def companyPatterns : List Re := [
  seqList [thankPre, lit " for applying to ", compGrp, compEnd1],
  seqList [thankPre, lit " for applying at ", compGrp, compEnd1],
  seqList [thankPre, lit " for ", .optG (lit "your "), lit "application ",
           litAlts ["to", "at"], exCh ' ', compGrp, compEnd1],
  seqList [lit "your application ", litAlts ["to", "for", "at"], exCh ' ',
           compGrp, compEnd2],
  seqList [lit "application ", litAlts ["to", "for", "at"], exCh ' ',
           compGrp, compEnd3],
  seqList [compGrp, exCh ' ', litAlts ["has", "have"],
           lit " received your application"],
  seqList [compGrp, lit " - ", litAlts ["Application", "Job Application", "Job"]],
  seqList [thankPre, lit " for your interest in ", compGrp, compEnd4],
  seqList [lit "your interest in ", compGrp, compEnd4],
  seqList [compGrp, exCh ' ', litAlts ["Application", "Application Follow-up"]],
  seqList [lit "position at ", compGrp, compEnd5],
  seqList [lit "role at ", compGrp, compEnd5],
  seqList [lit "opportunity at ", compGrp, compEnd5],
  seqList [lit "for ", .optG (lit "the "), compGrp, exCh ' ',
           litAlts ["position", "role", "job"]],
  seqList [compGrpShort, exCh ' ',
           litAlts ["application", "position", "role", "job"], exCh ' ',
           litAlts ["has been", "was"]]]

/-- `^(the|a|an)\s+` (IGNORECASE, no MULTILINE). -/
def articleRe : Re := seqList [.bolS, litAlts ["the", "a", "an"], spPlus]

/-- The three `stop_patterns` of the company cleanup, in source order. -/
def companyStops : List Re := [
  seqList [spPlus,
    litAlts ["Hi", "Dear", "We", "Your", "Our", "The", "A", "An", "This",
             "That", "Thank", "Thanks"], spPlus],
  seqList [spPlus,
    litAlts ["Jesus", "David", "John", "Mary", "Sarah", "Mike", "Chris",
             "Alex"], spStar, .optG (chIn ",!"), spStar],
  seqList [spPlus, .cls clsUpperCI, .repCls clsUpperCI 1 none false, spStar,
    .optG (chIn ",!"), spStar, .eolS]]

/-- `\b(LLC|Inc\.?|Corp\.?|Co\.?|Ltd\.?)\s*$` (IGNORECASE, no MULTILINE). -/
def llcRe : Re := seqList [.wb,
  alts [lit "LLC", .cat (lit "Inc") (.optG (exCh '.')),
        .cat (lit "Corp") (.optG (exCh '.')), .cat (lit "Co") (.optG (exCh '.')),
        .cat (lit "Ltd") (.optG (exCh '.'))],
  spStar, .eolS]

/-- `[.,!]+$` (no flags). -/
def punctTailRe : Re := .cat (.repCls (fun c => ".,!".data.contains c) 1 none false) .eolS

/-- The `invalid_names` tuple of `_extract_company_from_content`. -/
def contentInvalidNames : List String :=
  ["job", "position", "role", "application", "indeed", "linkedin", "myworkday",
   "this time", "this point", "this moment", "that time", "that point",
   "other applicants", "other candidates", "other people", "other companies",
   "us", "we", "our", "your", "their", "them", "they", "hi", "dear",
   "thank you very much for your recent", "thank you", "thanks"]

/-- The `startswith` rejection tuple of `_extract_company_from_content`. -/
def contentInvalidStarts : List String :=
  ["this ", "that ", "other ", "thank ", "thanks ", "hi ", "dear "]

/-- The first matching stop pattern truncates the candidate at the match
start and strips it (the `for pattern in stop_patterns` loop). -/
def applyCompanyStops : List Re → String → String
  | [], c => c
  | p :: ps, c =>
    match Re.search p c with
    | some h => pyStrip (pyTake h.start c)
    | none => applyCompanyStops ps c

/-- Cleanup and validation applied to a raw group-1 capture in
`_extract_company_from_content`; `none` means the candidate was rejected
(the loop then moves to the next pattern). -/
def companyFromMatch (raw : String) : Option String :=
  let c0 := pyStrip raw
  let c1 := Re.subAll articleRe "" c0
  let c2 := applyCompanyStops companyStops c1
  let c3 := if Re.isMatch llcRe c2 then c2 else Re.subAll punctTailRe "" c2
  let c4 := pyStrip c3
  if 2 ≤ pyLen c4 && pyLen c4 ≤ 50 &&
     !(contentInvalidNames.contains (pyLower c4)) &&
     !(contentInvalidStarts.any (fun p => pyStartsWith (pyLower c4) p)) then
    some c4
  else none

/-- The `for pattern in patterns` loop of `_extract_company_from_content`:
first pattern whose match survives cleanup and validation wins. -/
def companyContentLoop : List Re → String → Option String
  | [], _ => none
  | p :: ps, text =>
    match Re.search p text with
    | some h =>
      match h.g1 with
      | some g =>
        match companyFromMatch (String.mk g) with
        | some c => some c
        | none => companyContentLoop ps text
      | none => companyContentLoop ps text
    | none => companyContentLoop ps text

/-- `_extract_company_from_content`. -/
def extract_company_from_content (subject body : String) : Option String :=
  companyContentLoop companyPatterns (subject ++ " " ++ body)

/-- `_extract_company_name`: content extraction first, then the
sender-domain fallback (skipping personal-provider and job-board domains). -/
def extract_company_name (subject body sender : String) : Option String :=
  match extract_company_from_content subject body with
  | some c => some c
  | none =>
    if sender == "" || !(sender.data.contains '@') then none
    else
      let domain := pyLower ((pySplitChar '@' sender).getD 1 "")
      if PERSONAL_DOMAINS.any (fun p => pyStartsWith domain p) then none
      else if JOB_BOARD_DOMAINS.any (fun p => pyStartsWith domain p) then none
      else some (pyTitle ((pySplitChar '.' domain).getD 0 ""))

/-- The `for job_board in self.JOB_BOARD_DOMAINS` loop of
`_extract_where_applied`. -/
def firstBoard : List String → String → Option String
  | [], _ => none
  | b :: bs, domain =>
    if pyStartsWith domain b then some (pyTitle b) else firstBoard bs domain

/-- `_extract_where_applied`. -/
def extract_where_applied (sender : String) : Option String :=
  if sender == "" || !(sender.data.contains '@') then none
  else firstBoard JOB_BOARD_DOMAINS (pyLower ((pySplitChar '@' sender).getD 1 ""))

/-- `(?:Engineer|Developer|...)` — the role-keyword alternation, in source
order. -/
def roleKw : Re := litAlts
  ["Engineer", "Developer", "Manager", "Analyst", "Designer", "Specialist",
   "Architect", "Lead", "Senior", "Junior", "Early Career", "II", "III", "IV",
   "Platform", "Backend", "Frontend", "Full Stack"]

/-- `([A-Z][a-zA-Z\s&/()-,]+? (?:Engineer|...))` -/
def posGrpKw : Re :=
  .grp (seqList [.cls clsUpperCI, .repCls clsPosition 1 none true, exCh ' ', roleKw])

/-- `([A-Z][a-zA-Z\s&/()-,]+?)` -/
def posGrpPlain : Re := .grp (.cat (.cls clsUpperCI) (.repCls clsPosition 1 none true))

/-- The 7 position patterns of `_extract_position`, in source order. -/
def positionPatterns : List Re := [
  seqList [lit "for ", .optG (lit "the "), posGrpKw, spPlus,
           litAlts ["role", "position", "job"]],
  seqList [lit "application ", litAlts ["for", "to"], exCh ' ',
           .optG (lit "the "), posGrpKw],
  seqList [lit "role ", litAlts ["of", "at"], exCh ' ', posGrpPlain,
           alts [exCh '.', exCh ',', .eolM, exCh '\n', lit "at", lit "role"]],
  seqList [lit "position ", litAlts ["of", "at", "listed below"],
           colonSpacePlus, posGrpPlain,
           alts [exCh '.', exCh ',', .eolM, exCh '\n', lit "at", lit "position"]],
  posGrpKw,
  seqList [posGrpPlain, exCh ' ', litAlts ["position", "role"],
           alts [exCh '.', exCh ',', .eolM, exCh '\n']],
  seqList [lit "job", colonSpacePlus, posGrpPlain,
           alts [exCh '.', exCh ',', .eolM, exCh '\n']]]

/-- `^(the|a|an|for|to|at|our|your|their)\s+` -/
def posArticleRe : Re := seqList [.bolS,
  litAlts ["the", "a", "an", "for", "to", "at", "our", "your", "their"], spPlus]

/-- `\s+(position|role|job)$` -/
def posTailRe : Re := seqList [spPlus, litAlts ["position", "role", "job"], .eolS]

/-- The three position `stop_patterns`, in source order. -/
def positionStops : List Re := [
  seqList [spPlus, lit "at", spPlus, .cls clsUpperCI],
  seqList [spPlus, lit "for", spPlus, .cls clsUpperCI],
  seqList [spPlus, alts [lit "and", lit "or", lit "with", exCh ',', exCh '.', exCh '!'],
           spStar, .cls clsUpperCI, .repCls clsUpperCI 1 none false, spStar,
           .optG (chIn ",!"), spStar, .eolS]]

/-- `\s+\w{1,2}$` (no flags). -/
def shortWordTailRe : Re := seqList [spPlus, .repCls clsWord 1 (some 2) false, .eolS]

/-- The `invalid_positions` tuple. -/
def invalidPositions : List String :=
  ["job", "position", "role", "application", "opportunity",
   "nd for submitting your application for the software", "and appreci",
   "your interest", "your recent application to the full stack developer"]

/-- The `startswith` rejection tuple of `_extract_position`. -/
def positionInvalidStarts : List String :=
  ["your ", "our ", "the ", "for ", "to ", "at "]

/-- First matching position stop pattern: keep the text before the match
(`re.split(...)[0]`, the stop patterns capture nothing). -/
def applyPositionStops : List Re → String → String
  | [], c => c
  | p :: ps, c =>
    if Re.isMatch p c then Re.beforeFirst p c else applyPositionStops ps c

/-- Cleanup and validation of a raw position capture; `none` moves the outer
loop to the next pattern. -/
def positionFromMatch (raw : String) : Option String :=
  let p0 := pyStrip raw
  let p1 := Re.subAll posArticleRe "" p0
  let p2 := Re.subAll posTailRe "" p1
  let p3 := pyStrip p2
  let p4 := applyPositionStops positionStops p3
  let p5 := pyStrip p4
  let p6 := Re.subAll shortWordTailRe "" p5
  if 3 ≤ pyLen p6 && pyLen p6 ≤ 100 &&
     !(invalidPositions.contains (pyLower p6)) &&
     !(positionInvalidStarts.any (fun q => pyStartsWith (pyLower p6) q)) then
    some p6
  else none

/-- The `for pattern in patterns` loop of `_extract_position`. -/
def positionLoop : List Re → String → Option String
  | [], _ => none
  | p :: ps, text =>
    match Re.search p text with
    | some h =>
      match h.g1 with
      | some g =>
        match positionFromMatch (String.mk g) with
        | some c => some c
        | none => positionLoop ps text
      | none => positionLoop ps text
    | none => positionLoop ps text

/-- `_extract_position`. -/
def extract_position (subject body : String) : Option String :=
  positionLoop positionPatterns (subject ++ " " ++ body)

/-- `(?:stack|technologies?|skills?|tools?)` -/
def stackKw : Re := alts [lit "stack", .cat (lit "technologie") (.optG (ciCh 's')),
  .cat (lit "skill") (.optG (ciCh 's')), .cat (lit "tool") (.optG (ciCh 's'))]

/-- The 3 stack patterns of `_extract_stack`, in source order. -/
def stackPatterns : List Re := [
  seqList [stackKw, colonSpacePlus, .grp (.repCls clsStack 1 none true),
           alts [exCh '.', exCh ',', .eolM, exCh '\n', lit "required"]],
  seqList [litAlts ["using", "with", "require"], colonSpacePlus,
           .grp (.repCls clsStack 1 none true),
           alts [exCh '.', exCh ',', .eolM, exCh '\n']],
  seqList [.grp (.cat (.cls clsUpperCI) (.repCls clsStack 1 none true)),
           alts [lit " stack", lit " technologies"]]]

/-- `\s+` → `' '` whitespace collapsing (used by stack and salary). -/
def wsCollapse (s : String) : String := Re.subAll spPlus " " s

/-- The `for pattern in patterns` loop of `_extract_stack`. -/
def stackLoop : List Re → String → Option String
  | [], _ => none
  | p :: ps, text =>
    match Re.search p text with
    | some h =>
      match h.g1 with
      | some g =>
        let st := wsCollapse (pyStrip (String.mk g))
        if 3 ≤ pyLen st && pyLen st ≤ 500 then some st else stackLoop ps text
      | none => stackLoop ps text
    | none => stackLoop ps text

/-- `_extract_stack`. -/
def extract_stack (subject body : String) : Option String :=
  stackLoop stackPatterns (subject ++ " " ++ body)

/-- `(\w+ \d{1,2},? \d{4})` -/
def dateWordy : Re := .grp (seqList
  [.repCls clsWord 1 none false, exCh ' ', .repCls clsDigit 1 (some 2) false,
   .optG (exCh ','), exCh ' ', .repCls clsDigit 4 (some 4) false])

/-- The numeric date group: 1-2 digits, slash-or-hyphen, 1-2 digits,
slash-or-hyphen, 2-4 digits, all captured. -/
def dateNumeric : Re := .grp (seqList
  [.repCls clsDigit 1 (some 2) false, chIn "/-", .repCls clsDigit 1 (some 2) false,
   chIn "/-", .repCls clsDigit 2 (some 4) false])

/-- The 5 applied-date patterns of `_extract_applied_date`, in source order. -/
def appliedDatePatterns : List Re := [
  seqList [litAlts ["applied", "application submitted", "submitted"], exCh ' ',
           litAlts ["on", "date"], colonSpacePlus, dateWordy],
  seqList [litAlts ["applied", "application"], exCh ' ', litAlts ["on", "date"],
           colonSpacePlus, dateNumeric],
  seqList [lit "thank you for ", litAlts ["applying", "your application"],
           exCh ' ', litAlts ["on", "date"], colonSpacePlus, dateWordy],
  seqList [lit "thank you for ", litAlts ["applying", "your application"],
           exCh ' ', litAlts ["on", "date"], colonSpacePlus, dateNumeric],
  dateNumeric]

/-- A search loop that feeds each captured date string to the `dateutil`
oracle and moves on when parsing fails (the `try/except: continue` in the
source). -/
def dateLoop (du : String → Option String) : List Re → String → Option String
  | [], _ => none
  | p :: ps, text =>
    match Re.search p text with
    | some h =>
      match h.g1 with
      | some g =>
        match du (String.mk g) with
        | some d => some d
        | none => dateLoop du ps text
      | none => dateLoop du ps text
    | none => dateLoop du ps text

/-- `_extract_applied_date`. -/
def extract_applied_date (du : String → Option String) (subject body : String) :
    Option String :=
  dateLoop du appliedDatePatterns (subject ++ " " ++ body)

/-- `[A-Za-z0-9._%+-]` -/
def clsEmailLocal (c : Char) : Bool := c.isAlphanum || "._%+-".data.contains c

/-- `[A-Za-z0-9.-]` -/
def clsEmailDomain (c : Char) : Bool := c.isAlphanum || ".-".data.contains c

/-- `[A-Z|a-z]` (the source class literally includes `|`). -/
def clsTld (c : Char) : Bool := c.isAlpha || c == '|'

/-- `\b[A-Za-z0-9._%+-]+@[A-Za-z0-9.-]+\.[A-Z|a-z]{2,}\b` -/
def emailRe : Re := seqList
  [.wb, .repCls clsEmailLocal 1 none false, exCh '@',
   .repCls clsEmailDomain 1 none false, exCh '.', .repCls clsTld 2 none false, .wb]

/-- `_extract_email`: `re.findall`, filter out job-board addresses, first
survivor. -/
def extract_email (subject body : String) : Option String :=
  let text := subject ++ " " ++ body
  let found := Re.findAll emailRe text
  let filtered := found.filter (fun e =>
    !(JOB_BOARD_DOMAINS.any (fun d => pyEndsWith (pyLower e) ("@" ++ d ++ ".com"))))
  filtered.head?

/-- `[-.\s]` -/
def clsPhoneSep (c : Char) : Bool := c == '-' || c == '.' || pySpace c

/-- The 3 phone patterns of `_extract_phone_number`, in source order. -/
def phonePatterns : List Re := [
  seqList [.optG (exCh '('), .repCls clsDigit 3 (some 3) false, .optG (exCh ')'),
           .optG (.cls clsPhoneSep), .repCls clsDigit 3 (some 3) false,
           .optG (.cls clsPhoneSep), .repCls clsDigit 4 (some 4) false],
  seqList [exCh '+', .repCls clsDigit 1 (some 3) false, .optG (.cls clsPhoneSep),
           .repCls clsDigit 1 (some 4) false, .optG (.cls clsPhoneSep),
           .repCls clsDigit 1 (some 4) false, .optG (.cls clsPhoneSep),
           .repCls clsDigit 1 (some 9) false],
  seqList [.repCls clsDigit 3 (some 3) false, .optG (.cls clsPhoneSep),
           .repCls clsDigit 3 (some 3) false, .optG (.cls clsPhoneSep),
           .repCls clsDigit 4 (some 4) false]]

/-- `re.sub(r'[^\d+]', '', phone)`. -/
def phoneClean (s : String) : String :=
  Re.subAll (.cls (fun c => !(c.isDigit || c == '+'))) "" s

/-- The `for pattern in patterns` loop of `_extract_phone_number` (a match
whose cleaned digits fail the length check falls through to the next
pattern). -/
def phoneLoop : List Re → String → Option String
  | [], _ => none
  | p :: ps, text =>
    match Re.search p text with
    | some h =>
      let phone := phoneClean (pyStrip (String.mk h.g0))
      if 10 ≤ pyLen phone && pyLen phone ≤ 15 then some phone
      else phoneLoop ps text
    | none => phoneLoop ps text

/-- `_extract_phone_number`. -/
def extract_phone_number (subject body : String) : Option String :=
  phoneLoop phonePatterns (subject ++ " " ++ body)

/-- `\$[\d,]+(?:k|K)?` -/
def dollarAmt : Re := seqList
  [exCh '$', .repCls (fun c => c.isDigit || c == ',') 1 none false,
   .optG (.alt (exCh 'k') (exCh 'K'))]

/-- `[-–—]` (hyphen, en dash, em dash). -/
def dashCls : Re := chIn "-–—"

/-- The 3 salary patterns of `_extract_salary_range`, in source order. -/
def salaryPatterns : List Re := [
  seqList [dollarAmt, spStar, dashCls, spStar, dollarAmt],
  seqList [litAlts ["salary", "compensation", "pay"], colonSpacePlus, dollarAmt,
           .optG (seqList [spStar, dashCls, spStar, dollarAmt])],
  seqList [dollarAmt, .optG (seqList [spStar, exCh '/', spStar,
           litAlts ["year", "yr", "month", "mo"]])]]

/-- The `for pattern in patterns` loop of `_extract_salary_range`. -/
def salaryLoop : List Re → String → Option String
  | [], _ => none
  | p :: ps, text =>
    match Re.search p text with
    | some h =>
      let sal := wsCollapse (pyStrip (String.mk h.g0))
      if 5 ≤ pyLen sal && pyLen sal ≤ 50 then some sal else salaryLoop ps text
    | none => salaryLoop ps text

/-- `_extract_salary_range`. -/
def extract_salary_range (subject body : String) : Option String :=
  salaryLoop salaryPatterns (subject ++ " " ++ body)

/-- The 4 deadline patterns of `_extract_deadline`, in source order. -/
def deadlinePatterns : List Re := [
  seqList [lit "by ", dateWordy],
  seqList [lit "deadline", colonSpacePlus, dateWordy],
  seqList [lit "due ", litAlts ["by", "on"], exCh ' ', dateWordy],
  dateNumeric]

/-- `_extract_deadline` (applied to the body only). -/
def extract_deadline (du : String → Option String) (text : String) : Option String :=
  dateLoop du deadlinePatterns text

/-- The optional extraction fields of a classification result.  Python
represents these as dict entries; an absent key and a key whose value is
`None` behave identically everywhere downstream (the sync layer reads them
with `dict.get`), so both are modelled as `none`. -/
structure Fields where
  company_name : Option String := none
  position : Option String := none
  stack : Option String := none
  where_applied : Option String := none
  applied_date : Option String := none
  email : Option String := none
  phone_number : Option String := none
  salary_range : Option String := none
  deadline : Option String := none
deriving Repr, DecidableEq

/-- `_extract_application_data`. -/
def extract_application_data (du : String → Option String)
    (subject body sender email_date : String) : Fields :=
  let applied0 := extract_applied_date du subject body
  let applied :=
    if !(truthyS applied0) && email_date != "" then du email_date else applied0
  { company_name := extract_company_name subject body sender,
    position := extract_position subject body,
    stack := extract_stack subject body,
    where_applied := extract_where_applied sender,
    applied_date := applied,
    email := extract_email subject body,
    phone_number := extract_phone_number subject body,
    salary_range := extract_salary_range subject body }

/-- `_extract_rejection_data`. -/
def extract_rejection_data (subject body sender : String) : Fields :=
  { company_name := extract_company_name subject body sender,
    position := extract_position subject body }

/-- `_extract_assessment_data`. -/
def extract_assessment_data (du : String → Option String)
    (subject body sender : String) : Fields :=
  { company_name := extract_company_name subject body sender,
    position := extract_position subject body,
    deadline := extract_deadline du body }

/-- The result dict of `classify_email`. -/
structure PatternResult where
  type : Option String
  confidence : ℚ
  data : Fields
  needs_ai : Bool
deriving Repr, DecidableEq

/-- `classify_email`: ordered pattern-family check over the lower-cased
subject+body, fixed confidence per category, `needs_ai` when the confidence
is below 0.7 or nothing matched. -/
def classify_email (du : String → Option String)
    (subject body sender email_date : String) : PatternResult :=
  let text := pyLower (subject ++ " " ++ body)
  let step :=
    if matches_patterns text APPLICATION_PATTERNS then
      (some "application", mkRat 85 100,
        extract_application_data du subject body sender email_date)
    else if matches_patterns text REJECTION_PATTERNS then
      (some "rejection", mkRat 80 100, extract_rejection_data subject body sender)
    else if matches_patterns text ASSESSMENT_PATTERNS then
      (some "assessment", mkRat 75 100, extract_assessment_data du subject body sender)
    else (none, 0, ({} : Fields))
  { type := step.1, confidence := step.2.1, data := step.2.2,
    needs_ai := decide (step.2.1 < mkRat 7 10) || step.1.isNone }

end EmailParser

/-! ## AIEmailAnalyzer (`crm/services/ai_email_analyzer.py`)

External effects are oracle parameters: `cached` models `cache.get` for the
content hash; `hasClient` whether `OPENAI_API_KEY` was configured
(`self.client is not None`); `callApi` the OpenAI chat-completion call
returning the stripped response text or raising; `preprocess` the code-fence
stripping and balanced-JSON-object narrowing of the response (source lines
78–88); `jsonLoads` the `json.loads` of the narrowed text into the result
mapping.  The `cache.set` on the success path writes external state and has
no bearing on the returned value.  Every branch of the source returns a
mapping, so the embedding is a total function: `analyze_email` never
raises. -/

namespace AIEmailAnalyzer

/-- The classification mapping produced by the generative fallback
(`json.loads` output, or one of the error mappings built in the source).
Absent keys are `none`. -/
structure AiResult where
  type : Option String := none
  confidence : Option ℚ := none
  company_name : Option String := none
  position : Option String := none
  stack : Option String := none
  where_applied : Option String := none
  applied_date : Option String := none
  email : Option String := none
  phone_number : Option String := none
  salary_range : Option String := none
  deadline : Option String := none
  error : Option String := none
deriving Repr, DecidableEq

/-- The `type: unknown, confidence: 0.0, error: msg` mapping returned on
every failure path. -/
def errResult (msg : String) : AiResult :=
  { type := some "unknown", confidence := some 0, error := some msg }

/-- `analyze_email`. -/
def analyze_email (cached : Option AiResult) (hasClient : Bool)
    (callApi : Except String String) (preprocess : String → String)
    (jsonLoads : String → Except String AiResult) : AiResult :=
  match cached with
  | some r => r
  | none =>
    if !hasClient then errResult "OpenAI API key not configured"
    else
      match callApi with
      | .error e => errResult e
      | .ok raw =>
        let content := preprocess raw
        match jsonLoads content with
        | .ok r => r
        | .error e =>
          errResult ("Invalid JSON response: " ++ e ++ ". Response preview: " ++
            (if content == "" then "Empty" else pyTake 200 content))

end AIEmailAnalyzer

/-! ## EmailProcessor (`crm/services/email_processor.py`) -/

/-- A raw message dict as produced by `GmailService.fetch_recent_emails`
(`id`, `subject`, `body`, `from`, `date`); the sync layer reads every key
with a `''` default, so missing keys are the empty string. -/
structure EmailMsg where
  id : String := ""
  subject : String := ""
  body : String := ""
  «from» : String := ""
  date : String := ""
deriving Repr, DecidableEq

namespace EmailProcessor

open AIEmailAnalyzer

/-- `CONFIDENCE_THRESHOLD` -/
def CONFIDENCE_THRESHOLD : ℚ := mkRat 7 10

/-- The unified result dict of `process_email`.  The pattern path keeps the
`needs_ai` key of the pattern result (spread with `**pattern_result`); the
generative paths do not produce it. -/
structure ProcOut where
  type : Option String
  confidence : ℚ
  data : EmailParser.Fields
  needs_ai : Option Bool
  source : String
  used_ai : Bool
  error : Option String
deriving Repr, DecidableEq

/-- Normalize `application_confirmation` to `application`. -/
def normAiType : Option String → Option String
  | some "application_confirmation" => some "application"
  | t => t

/-- The field subset copied from a generative result into the unified
`data` dict (both the `ai_data` loop and the dict comprehension on the
invalid-but-pattern-failed path copy the same nine keys). -/
def aiDataOf (air : AiResult) : EmailParser.Fields :=
  { company_name := air.company_name, position := air.position,
    stack := air.stack, where_applied := air.where_applied,
    applied_date := air.applied_date, email := air.email,
    phone_number := air.phone_number, salary_range := air.salary_range,
    deadline := air.deadline }

/-- The escalation test of `process_email` (source lines 56–61): escalate
when the deterministic category is `application`, when pattern matching
failed, when it flagged `needs_ai`, or when its confidence is below the
threshold. -/
def shouldUseAi (pr : EmailParser.PatternResult) : Bool :=
  (pr.type == some "application") || (pr.type == none) || pr.needs_ai ||
    decide (pr.confidence < CONFIDENCE_THRESHOLD)

/-- `process_email`.  `du` is the `dateutil` oracle of the deterministic
parser; `ai` is the `AIEmailAnalyzer.analyze_email` call, whose `.error`
case models an unexpected exception from it (the `except Exception` arm). -/
def process_email (du : String → Option String)
    (ai : Except String AiResult) (msg : EmailMsg) : ProcOut :=
  let pr := EmailParser.classify_email du msg.subject msg.body msg.«from» msg.date
  let is_application := pr.type == some "application"
  let pattern_failed := pr.type == none
  let should_use_ai := shouldUseAi pr
  let patternOut : ProcOut :=
    { type := pr.type, confidence := pr.confidence, data := pr.data,
      needs_ai := some pr.needs_ai, source := "pattern", used_ai := false,
      error := none }
  if should_use_ai then
    match ai with
    | .error e =>
      if pattern_failed then
        { type := some "unknown", confidence := 0, data := {},
          needs_ai := none, source := "ai", used_ai := true, error := some e }
      else patternOut
    | .ok air =>
      if air.error.isSome then
        { type := some (air.type.getD "unknown"), confidence := 0, data := {},
          needs_ai := none, source := "ai", used_ai := true, error := air.error }
      else
        let ai_is_valid :=
          if is_application || pattern_failed then
            let v0 := air.type != some "unknown" && air.type != none &&
              air.error.isNone
            if is_application || air.type == some "application" ||
               air.type == some "application_confirmation" then
              v0 && truthyS air.company_name
            else v0
          else
            decide (air.confidence.getD 0 > pr.confidence) &&
              air.type != some "unknown" && air.error.isNone
        if ai_is_valid then
          { type := normAiType air.type, confidence := air.confidence.getD 0,
            data := aiDataOf air, needs_ai := none, source := "ai",
            used_ai := true, error := none }
        else if pattern_failed then
          { type := some (match normAiType air.type with
              | some t => if t == "" then "unknown" else t
              | none => "unknown"),
            confidence := air.confidence.getD 0, data := aiDataOf air,
            needs_ai := none, source := "ai", used_ai := true, error := none }
        else patternOut
  else patternOut

end EmailProcessor

/-! ## Persistent model fields (`crm/models.py`)

`created_at`/`updated_at` are ORM-managed audit stamps
(`auto_now_add`/`auto_now`) never assigned by the service code and are
outside the embedding. -/

/-- The `EmailAccount` fields read or written by the sync service. -/
structure EmailAccount where
  id : Nat
  user : Nat
  email : String
  provider : String
  access_token : String
  refresh_token : String
  token_expires_at : Option Int
  is_active : Bool
  last_sync_at : Option Int
deriving Repr, DecidableEq

/-- An `AutoDetectedApplication` row as created by the sync service (the
`email_account` foreign key is the account of the enclosing run;
`reviewed_at`/`merged_into_application` stay at their defaults). -/
structure AutoDetectedApplication where
  email_message_id : String
  company_name : String
  position : String
  stack : String
  where_applied : String
  applied_date : Option Int
  email : String
  phone_number : String
  salary_range : String
  confidence_score : ℚ
  status : String
  detected_at : Int
deriving Repr, DecidableEq

/-- The mapping returned by `GmailOAuthService.refresh_access_token`. -/
structure TokenData where
  access_token : String
  expires_at : Option String := none
deriving Repr, DecidableEq

/-! ## EmailSyncService (`crm/services/email_sync_service.py`) -/

namespace EmailSyncService

open EmailProcessor

/-- `MIN_CONFIDENCE_THRESHOLD` -/
def MIN_CONFIDENCE_THRESHOLD : ℚ := mkRat 6 10

/-- `JOB_RELATED_TYPES` -/
def JOB_RELATED_TYPES : List String :=
  ["application", "rejection", "assessment", "interview", "interaction"]

/-- The `invalid_names` tuple of `sync_emails_for_account`. -/
def syncInvalidNames : List String :=
  ["", "unknown", "unknown company", "n/a", "none",
   "congratulations", "thank you", "thanks", "hi", "dear",
   "hello", "greetings", "application", "job", "position",
   "role", "opportunity", "company", "employer"]

/-- The per-run counters (`stats`); the inactive-account early return adds a
`message` key. -/
structure SyncStats where
  processed : Nat := 0
  created : Nat := 0
  skipped : Nat := 0
  errors : Nat := 0
  message : Option String := none
deriving Repr, DecidableEq

/-- External collaborators of one per-account run, as oracles:

* `refreshTok` — `GmailOAuthService.refresh_access_token` (raises or
  returns the token mapping);
* `parseIso` — `datetime.fromisoformat` applied to the expiry string after
  the `Z` → `+00:00` replacement (`none` models `ValueError`);
* `fetch` — `GmailService.fetch_recent_emails(max_results)` (raises, e.g.
  on an authentication failure, or returns the message batch);
* `process` — `EmailProcessor().process_email` together with everything
  else inside the per-message `try` (the `.error` case models an unexpected
  per-message exception, e.g. a failing save);
* `existingIds` — the `email_message_id` values already persisted for this
  account (the dedup lookup);
* `applications` — the persisted `Application` rows as
  `(created_by, company_name)` pairs (the rejection-gate lookup
  `company_name__iexact=..., created_by=...`);
* `duParseDate` — `date_parser.parse(s).date()`;
* `duParseDT` — `date_parser.parse(s)` as (is-naive?, instant);
* `mkAware` — `timezone.make_aware`. -/
structure SyncEnv where
  refreshTok : Except String TokenData
  parseIso : String → Option Int
  fetch : Nat → Except String (List EmailMsg)
  process : EmailMsg → Except Unit ProcOut
  existingIds : List String
  applications : List (Nat × String)
  duParseDate : String → Option Int
  duParseDT : String → Option (Bool × Int)
  mkAware : Int → Int

/-- The state threaded through the `for email in emails` loop: counters,
the rows created so far, and the dedup keys visible in the database (the
pre-existing ones plus those of the rows created by this run). -/
structure LoopState where
  stats : SyncStats
  created_apps : List AutoDetectedApplication
  known_ids : List String
deriving Repr, DecidableEq

/-- `email_type` normalization (`application_confirmation` → `application`)
applied to `result.get('type', '')`. -/
def normalizedType (t : Option String) : String :=
  if t.getD "" == "application_confirmation" then "application" else t.getD ""

/-- Does a persisted `Application` with this company name (case-insensitive)
and owner exist?  (`Application.objects.filter(company_name__iexact=...,
created_by=...).exists()`.) -/
def hasExistingApplication (applications : List (Nat × String)) (user : Nat)
    (company_name : String) : Bool :=
  applications.any (fun p => p.1 == user && pyLower p.2 == pyLower company_name)

/-- `detected_at` of source lines 189–202: the parsed message date (made
aware when naive), current time when absent or unparseable. -/
def detectedAtOf (env : SyncEnv) (now : Int) (date : String) : Int :=
  if date != "" then
    match env.duParseDT date with
    | some p => if p.1 then env.mkAware p.2 else p.2
    | none => now
  else now

/-- The body of the `for email in emails` loop of
`sync_emails_for_account` (source lines 92–232). -/
def processOneEmail (env : SyncEnv) (account : EmailAccount) (now : Int)
    (st : LoopState) (email : EmailMsg) : LoopState :=
  let st := { st with stats := { st.stats with processed := st.stats.processed + 1 } }
  if st.known_ids.contains email.id then
    { st with stats := { st.stats with skipped := st.stats.skipped + 1 } }
  else
    match env.process email with
    | .error _ =>
      { st with stats := { st.stats with errors := st.stats.errors + 1 } }
    | .ok r =>
      let email_type := normalizedType r.type
      if JOB_RELATED_TYPES.contains email_type &&
         decide (MIN_CONFIDENCE_THRESHOLD ≤ r.confidence) then
        -- `data = result.get('data', ...); if not data: data = result`:
        -- every branch of `process_email` returns a `data` dict and carries
        -- no extraction fields at top level, so the empty-dict fallback
        -- reads every field as absent either way.
        let data := r.data
        match data.company_name with
        | none => { st with stats := { st.stats with skipped := st.stats.skipped + 1 } }
        | some company_name =>
          if company_name == "" || pyStrip company_name == "" ||
             syncInvalidNames.contains (pyLower company_name) ||
             pyLen (pyStrip company_name) < 2 then
            { st with stats := { st.stats with skipped := st.stats.skipped + 1 } }
          else if email_type == "rejection" &&
              !(hasExistingApplication env.applications account.user company_name) then
            { st with stats := { st.stats with skipped := st.stats.skipped + 1 } }
          else
            let applied1 : Option Int :=
              match data.applied_date with
              | some s => if s != "" then env.duParseDate s else none
              | none => none
            let applied2 : Option Int :=
              match applied1 with
              | some d => some d
              | none => if email.date != "" then env.duParseDate email.date else none
            let app : AutoDetectedApplication :=
              { email_message_id := email.id,
                company_name := company_name,
                position := data.position.getD "",
                stack := data.stack.getD "",
                where_applied := data.where_applied.getD "",
                applied_date := applied2,
                email := data.email.getD "",
                phone_number := data.phone_number.getD "",
                salary_range := data.salary_range.getD "",
                confidence_score := r.confidence,
                status := "pending",
                detected_at := detectedAtOf env now email.date }
            { stats := { st.stats with created := st.stats.created + 1 },
              created_apps := st.created_apps ++ [app],
              known_ids := st.known_ids ++ [email.id] }
      else
        { st with stats := { st.stats with skipped := st.stats.skipped + 1 } }

/-- Does the token-refresh branch fire?  (`token_expires_at` set and passed,
and a refresh token present — source lines 53–55.) -/
def tokenNeedsRefresh (account : EmailAccount) (now : Int) : Bool :=
  (match account.token_expires_at with
   | some t => decide (t ≤ now)
   | none => false) && account.refresh_token != ""

/-- The token-refresh step of `sync_emails_for_account` (source lines
53–74): when the stored token has expired and a refresh token exists, ask
the OAuth service for a new token and rewrite `access_token` (and
`token_expires_at` when the response carries a truthy `expires_at`:
the parsed instant, or now + 1 hour if unparseable); a refresh failure is
fatal for the run. -/
def refreshedAccount (env : SyncEnv) (now : Int) (account : EmailAccount) :
    Except String EmailAccount :=
  if tokenNeedsRefresh account now then
    match env.refreshTok with
    | .error e => .error ("Failed to refresh access token: " ++ e)
    | .ok td =>
      let acc := { account with access_token := td.access_token }
      .ok (if truthyS td.expires_at then
             match env.parseIso (td.expires_at.getD "") with
             | some t => { acc with token_expires_at := some t }
             | none => { acc with token_expires_at := some (now + 3600) }
           else acc)
  else .ok account

/-- The `for email in emails` loop over the fetched batch, starting from
zeroed counters and the account's persisted dedup keys. -/
def runLoop (env : SyncEnv) (acc : EmailAccount) (now : Int)
    (emails : List EmailMsg) : LoopState :=
  emails.foldl (processOneEmail env acc now)
    { stats := {}, created_apps := [], known_ids := env.existingIds }

/-- `sync_emails_for_account`.  Returns the stats dict, the
`AutoDetectedApplication` rows created by the run, and the saved account;
`.error` models the exceptions the source raises (failed token refresh,
fetch-level errors). -/
def sync_emails_for_account (env : SyncEnv) (now : Int) (account : EmailAccount)
    (max_results : Nat := 50) :
    Except String (SyncStats × List AutoDetectedApplication × EmailAccount) :=
  if !account.is_active then
    .ok ({ message := some "Email account is not active" }, [], account)
  else
    match refreshedAccount env now account with
    | .error e => .error e
    | .ok acc =>
      match env.fetch max_results with
      | .error e => .error e
      | .ok emails =>
        .ok ((runLoop env acc now emails).stats,
             (runLoop env acc now emails).created_apps,
             { acc with last_sync_at := some now })

/-- One entry of the multi-account `errors` list. -/
structure SyncErrEntry where
  account_id : Nat
  email : String
  error : String
deriving Repr, DecidableEq

/-- The summary dict of `sync_all_active_accounts`. -/
structure SyncSummary where
  accounts_processed : Nat := 0
  accounts_succeeded : Nat := 0
  accounts_failed : Nat := 0
  total_emails_processed : Nat := 0
  total_detected_created : Nat := 0
  errors : List SyncErrEntry := []
deriving Repr, DecidableEq

/-- `sync_all_active_accounts`: iterate the active accounts, aggregate
counts, isolate per-account failures into the `errors` list.  `envOf` gives
each account its external collaborators; `accounts` is the
`EmailAccount.objects.filter(is_active=True)` query source. -/
def sync_all_active_accounts (envOf : EmailAccount → SyncEnv) (now : Int)
    (accounts : List EmailAccount) (max_results_per_account : Nat := 50) :
    SyncSummary :=
  (accounts.filter (fun a => a.is_active)).foldl
    (fun s a =>
      let s := { s with accounts_processed := s.accounts_processed + 1 }
      match sync_emails_for_account (envOf a) now a max_results_per_account with
      | .ok (st, _, _) =>
        { s with accounts_succeeded := s.accounts_succeeded + 1,
                 total_emails_processed := s.total_emails_processed + st.processed,
                 total_detected_created := s.total_detected_created + st.created }
      | .error e =>
        { s with accounts_failed := s.accounts_failed + 1,
                 errors := s.errors ++ [⟨a.id, a.email, e⟩] }) {}

end EmailSyncService

/-! ## Helper lemmas -/

/-- `(t == none) = t.isNone` for options. -/
theorem beq_none_eq_isNone (t : Option String) : (t == none) = t.isNone := by
  cases t <;> rfl

/-- The `needs_ai` flag of a classification is exactly
"confidence below 0.7 or no category". -/
theorem classify_email_needs_ai (du : String → Option String)
    (subject body sender email_date : String) :
    (EmailParser.classify_email du subject body sender email_date).needs_ai =
      (decide ((EmailParser.classify_email du subject body sender email_date).confidence < mkRat 7 10) ||
       (EmailParser.classify_email du subject body sender email_date).type.isNone) := rfl

/-- `classify_email` yields one of exactly four category/confidence pairs. -/
theorem classify_email_cases (du : String → Option String)
    (subject body sender email_date : String) :
    ((EmailParser.classify_email du subject body sender email_date).type = some "application" ∧
     (EmailParser.classify_email du subject body sender email_date).confidence = mkRat 85 100) ∨
    ((EmailParser.classify_email du subject body sender email_date).type = some "rejection" ∧
     (EmailParser.classify_email du subject body sender email_date).confidence = mkRat 80 100) ∨
    ((EmailParser.classify_email du subject body sender email_date).type = some "assessment" ∧
     (EmailParser.classify_email du subject body sender email_date).confidence = mkRat 75 100) ∨
    ((EmailParser.classify_email du subject body sender email_date).type = none ∧
     (EmailParser.classify_email du subject body sender email_date).confidence = 0) := by
  unfold EmailParser.classify_email
  dsimp only
  split
  · exact Or.inl ⟨rfl, rfl⟩
  · split
    · exact Or.inr (Or.inl ⟨rfl, rfl⟩)
    · split
      · exact Or.inr (Or.inr (Or.inl ⟨rfl, rfl⟩))
      · exact Or.inr (Or.inr (Or.inr ⟨rfl, rfl⟩))

/-! ## Claims -/

/-- C7: with no generative-model API key configured (and no cached entry for
the content), `analyze_email` returns the `unknown`/0-confidence mapping
whose error says the key is not configured; and on every transport failure
or JSON-parse failure it returns an `unknown`/0-confidence mapping carrying
an error key — it never propagates an exception (the embedding is a total
function; every source path returns). -/
theorem claim7_analyze_email_error_contract
    (callApi : Except String String) (preprocess : String → String)
    (jsonLoads : String → Except String AIEmailAnalyzer.AiResult) :
    (AIEmailAnalyzer.analyze_email none false callApi preprocess jsonLoads =
      { type := some "unknown", confidence := some 0,
        error := some "OpenAI API key not configured" }) ∧
    (∀ e, callApi = .error e →
      AIEmailAnalyzer.analyze_email none true callApi preprocess jsonLoads =
        { type := some "unknown", confidence := some 0, error := some e }) ∧
    (∀ raw e, callApi = .ok raw → jsonLoads (preprocess raw) = .error e →
      (AIEmailAnalyzer.analyze_email none true callApi preprocess jsonLoads).type
          = some "unknown" ∧
      (AIEmailAnalyzer.analyze_email none true callApi preprocess jsonLoads).confidence
          = some 0 ∧
      (AIEmailAnalyzer.analyze_email none true callApi preprocess jsonLoads).error.isSome
          = true) := by
  refine ⟨rfl, ?_, ?_⟩
  · intro e he
    subst he
    rfl
  · intro raw e hc hj
    subst hc
    simp [AIEmailAnalyzer.analyze_email, hj, AIEmailAnalyzer.errResult]

/-- Witness for C7 at concrete oracles. -/
theorem claim7_analyze_email_error_contract_witness :
    (AIEmailAnalyzer.analyze_email none false (.error "boom") id (fun _ => .error "bad") =
      { type := some "unknown", confidence := some 0,
        error := some "OpenAI API key not configured" }) ∧
    (AIEmailAnalyzer.analyze_email none true (.error "boom") id (fun _ => .error "bad") =
      { type := some "unknown", confidence := some 0, error := some "boom" }) ∧
    (AIEmailAnalyzer.analyze_email none true (.ok "junk") id
      (fun _ => .error "bad")).error.isSome = true := by
  have h1 := claim7_analyze_email_error_contract (.error "boom") id (fun _ => .error "bad")
  have h2 := claim7_analyze_email_error_contract (.ok "junk") id (fun _ => .error "bad")
  exact ⟨h1.1, h1.2.1 "boom" rfl, (h2.2.2 "junk" "bad" rfl rfl).2.2⟩

/-- C8: whenever the lower-cased subject+body matches an
application-confirmation pattern, `classify_email` reports category
`application` with confidence 0.85 (greater than 0.7) and does not flag
escalation. -/
theorem claim8_application_pattern_high_confidence
    (du : String → Option String) (subject body sender email_date : String)
    (h : EmailParser.matches_patterns (pyLower (subject ++ " " ++ body))
      EmailParser.APPLICATION_PATTERNS = true) :
    (EmailParser.classify_email du subject body sender email_date).type = some "application" ∧
    (EmailParser.classify_email du subject body sender email_date).confidence = 0.85 ∧
    (0.7 : ℚ) < (EmailParser.classify_email du subject body sender email_date).confidence ∧
    (EmailParser.classify_email du subject body sender email_date).needs_ai = false := by
  unfold EmailParser.classify_email
  simp only [h, if_true]
  refine ⟨by trivial, by rw [Rat.mkRat_eq_div]; norm_num,
    by rw [Rat.mkRat_eq_div]; norm_num, by decide⟩

/-- Witness for C8 at a concrete application-confirmation message. -/
theorem claim8_application_pattern_high_confidence_witness :
    EmailParser.matches_patterns (pyLower ("Thank you for applying" ++ " " ++ ""))
      EmailParser.APPLICATION_PATTERNS = true ∧
    (EmailParser.classify_email (fun _ => none) "Thank you for applying" ""
      "hr@acme.com" "").type = some "application" := by
  have hm : EmailParser.matches_patterns (pyLower ("Thank you for applying" ++ " " ++ ""))
      EmailParser.APPLICATION_PATTERNS = true := by rfl
  exact ⟨hm, (claim8_application_pattern_high_confidence (fun _ => none)
    "Thank you for applying" "" "hr@acme.com" "" hm).1⟩

/-- C4: the hybrid processor escalates to the generative fallback exactly
when the deterministic category is `application`, the deterministic pass
found nothing, or it flagged `needs_ai`; deterministic `rejection` (0.80)
and `assessment` (0.75) results never escalate, and whenever escalation is
off, `process_email` returns the deterministic result tagged
`source = "pattern"`, `used_ai = false`, for every behavior of the
fallback. -/
theorem claim4_escalation_policy (du : String → Option String) (msg : EmailMsg)
    (pr : EmailParser.PatternResult)
    (hpr : pr = EmailParser.classify_email du msg.subject msg.body msg.«from» msg.date) :
    (EmailProcessor.shouldUseAi pr =
      ((pr.type == some "application") || (pr.type == none) || pr.needs_ai)) ∧
    ((pr.type = some "rejection" ∨ pr.type = some "assessment") →
      EmailProcessor.shouldUseAi pr = false) ∧
    (EmailProcessor.shouldUseAi pr = false →
      ∀ ai, EmailProcessor.process_email du ai msg =
        { type := pr.type, confidence := pr.confidence, data := pr.data,
          needs_ai := some pr.needs_ai, source := "pattern", used_ai := false,
          error := none }) := by
  subst hpr
  refine ⟨?_, ?_, ?_⟩
  · rcases classify_email_cases du msg.subject msg.body msg.«from» msg.date with
      ⟨ht, hc⟩ | ⟨ht, hc⟩ | ⟨ht, hc⟩ | ⟨ht, hc⟩ <;>
    simp only [EmailProcessor.shouldUseAi, EmailProcessor.CONFIDENCE_THRESHOLD,
      classify_email_needs_ai, ht, hc] <;> decide
  · intro hcase
    rcases classify_email_cases du msg.subject msg.body msg.«from» msg.date with
      ⟨ht, hc⟩ | ⟨ht, hc⟩ | ⟨ht, hc⟩ | ⟨ht, hc⟩
    · rw [ht] at hcase
      rcases hcase with h | h <;> simp at h
    · simp only [EmailProcessor.shouldUseAi, EmailProcessor.CONFIDENCE_THRESHOLD,
        classify_email_needs_ai, ht, hc]
      decide
    · simp only [EmailProcessor.shouldUseAi, EmailProcessor.CONFIDENCE_THRESHOLD,
        classify_email_needs_ai, ht, hc]
      decide
    · rw [ht] at hcase
      rcases hcase with h | h <;> simp at h
  · intro hoff ai
    simp [EmailProcessor.process_email, hoff]

/-- Witness for C4 at a concrete rejection message (deterministic
confidence 0.80): no escalation, and the pattern result is returned for an
arbitrary fallback behavior. -/
theorem claim4_escalation_policy_witness :
    (EmailParser.classify_email (fun _ => none) "Update"
      "unfortunately we chose another candidate" "hr@acme.com" "").type = some "rejection" ∧
    EmailProcessor.shouldUseAi (EmailParser.classify_email (fun _ => none) "Update"
      "unfortunately we chose another candidate" "hr@acme.com" "") = false ∧
    EmailProcessor.process_email (fun _ => none) (.error "down")
      { subject := "Update", body := "unfortunately we chose another candidate",
        «from» := "hr@acme.com" } =
      { type := (EmailParser.classify_email (fun _ => none) "Update"
          "unfortunately we chose another candidate" "hr@acme.com" "").type,
        confidence := (EmailParser.classify_email (fun _ => none) "Update"
          "unfortunately we chose another candidate" "hr@acme.com" "").confidence,
        data := (EmailParser.classify_email (fun _ => none) "Update"
          "unfortunately we chose another candidate" "hr@acme.com" "").data,
        needs_ai := some (EmailParser.classify_email (fun _ => none) "Update"
          "unfortunately we chose another candidate" "hr@acme.com" "").needs_ai,
        source := "pattern", used_ai := false, error := none } := by
  have ht : (EmailParser.classify_email (fun _ => none) "Update"
      "unfortunately we chose another candidate" "hr@acme.com" "").type
        = some "rejection" := by rfl
  have h := claim4_escalation_policy (fun _ => none)
    { subject := "Update", body := "unfortunately we chose another candidate",
      «from» := "hr@acme.com" } _ rfl
  have hoff := h.2.1 (Or.inl ht)
  exact ⟨ht, hoff, h.2.2 hoff (.error "down")⟩

/-- The token-refresh step only ever touches `access_token` and
`token_expires_at`, and does nothing at all when the refresh condition does
not hold. -/
theorem refreshedAccount_frame (env : EmailSyncService.SyncEnv) (now : Int)
    (a acc : EmailAccount)
    (h : EmailSyncService.refreshedAccount env now a = .ok acc) :
    acc.id = a.id ∧ acc.user = a.user ∧ acc.email = a.email ∧
    acc.provider = a.provider ∧ acc.refresh_token = a.refresh_token ∧
    acc.is_active = a.is_active ∧ acc.last_sync_at = a.last_sync_at ∧
    (EmailSyncService.tokenNeedsRefresh a now = false → acc = a) := by
  unfold EmailSyncService.refreshedAccount at h
  split at h
  · rename_i hcond
    split at h
    · exact absurd h (by simp)
    · dsimp only at h
      split at h
      · split at h
        · injection h with h
          subst h
          exact ⟨rfl, rfl, rfl, rfl, rfl, rfl, rfl,
            fun hf => Bool.noConfusion (hf ▸ hcond)⟩
        · injection h with h
          subst h
          exact ⟨rfl, rfl, rfl, rfl, rfl, rfl, rfl,
            fun hf => Bool.noConfusion (hf ▸ hcond)⟩
      · injection h with h
        subst h
        exact ⟨rfl, rfl, rfl, rfl, rfl, rfl, rfl,
          fun hf => Bool.noConfusion (hf ▸ hcond)⟩
  · injection h with h
    subst h
    exact ⟨rfl, rfl, rfl, rfl, rfl, rfl, rfl, fun _ => rfl⟩

/-- Eliminator for a successful run on an active account: there is a
refreshed account and a fetched batch, and the results are those of the
message loop. -/
theorem sync_ok_elim (env : EmailSyncService.SyncEnv) (now : Int)
    (acct : EmailAccount) (mr : Nat) (s : EmailSyncService.SyncStats)
    (apps : List AutoDetectedApplication) (a' : EmailAccount)
    (hact : acct.is_active = true)
    (h : EmailSyncService.sync_emails_for_account env now acct mr = .ok (s, apps, a')) :
    ∃ acc emails,
      EmailSyncService.refreshedAccount env now acct = .ok acc ∧
      env.fetch mr = .ok emails ∧
      s = (EmailSyncService.runLoop env acc now emails).stats ∧
      apps = (EmailSyncService.runLoop env acc now emails).created_apps ∧
      a' = { acc with last_sync_at := some now } := by
  unfold EmailSyncService.sync_emails_for_account at h
  rw [hact] at h
  simp only [Bool.not_true, Bool.false_eq_true, if_false] at h
  split at h
  · exact absurd h (by simp)
  · rename_i acc heq
    split at h
    · exact absurd h (by simp)
    · rename_i emails heq2
      injection h with h
      injection h with h1 h
      injection h with h2 h3
      exact ⟨acc, emails, heq, heq2, h1.symm, h2.symm, h3.symm⟩

/-! ### Concrete fixtures used by the witnesses -/

/-- A concrete active account. -/
def testAccount : EmailAccount :=
  { id := 1, user := 7, email := "u@x.com", provider := "gmail",
    access_token := "tok", refresh_token := "", token_expires_at := none,
    is_active := true, last_sync_at := none }

/-- A concrete fetched message. -/
def testMsg : EmailMsg :=
  { id := "m1", subject := "s", body := "b", «from» := "a@b.com", date := "D" }

/-- A concrete processor verdict: a confident application with a company. -/
def testProc : EmailProcessor.ProcOut :=
  { type := some "application", confidence := mkRat 85 100,
    data := { company_name := some "Acme" }, needs_ai := some false,
    source := "pattern", used_ai := false, error := none }

/-- A concrete oracle environment: the fetch returns `[testMsg]`, the
processor returns `testProc`, the message date parses to the naive
instant 555. -/
def testEnv : EmailSyncService.SyncEnv :=
  { refreshTok := .error "no", parseIso := fun _ => none,
    fetch := fun _ => .ok [testMsg], process := fun _ => .ok testProc,
    existingIds := [], applications := [],
    duParseDate := fun _ => some 100, duParseDT := fun _ => some (true, 555),
    mkAware := fun v => v + 1 }

/-- The row the run over `testEnv` persists. -/
def testRec : AutoDetectedApplication :=
  { email_message_id := "m1", company_name := "Acme", position := "",
    stack := "", where_applied := "", applied_date := some 100, email := "",
    phone_number := "", salary_range := "", confidence_score := mkRat 85 100,
    status := "pending", detected_at := 556 }

/-- C9: a successful run on an active account rewrites only
`access_token`/`token_expires_at` (and those only when the refresh branch
fires: stored expiry passed and a refresh token present) and
`last_sync_at`; the identity, owner, address, provider, refresh token and
active flag come out unchanged. -/
theorem claim9_sync_account_frame (env : EmailSyncService.SyncEnv) (now : Int)
    (acct : EmailAccount) (mr : Nat) (s : EmailSyncService.SyncStats)
    (apps : List AutoDetectedApplication) (a' : EmailAccount)
    (hact : acct.is_active = true)
    (h : EmailSyncService.sync_emails_for_account env now acct mr = .ok (s, apps, a')) :
    a'.id = acct.id ∧ a'.user = acct.user ∧ a'.email = acct.email ∧
    a'.provider = acct.provider ∧ a'.refresh_token = acct.refresh_token ∧
    a'.is_active = acct.is_active ∧ a'.last_sync_at = some now ∧
    (EmailSyncService.tokenNeedsRefresh acct now = false →
      a'.access_token = acct.access_token ∧
      a'.token_expires_at = acct.token_expires_at) := by
  obtain ⟨acc, emails, hr, hf, hs, ha, hacc⟩ :=
    sync_ok_elim env now acct mr s apps a' hact h
  obtain ⟨h1, h2, h3, h4, h5, h6, h7, h8⟩ :=
    refreshedAccount_frame env now acct acc hr
  subst hacc
  refine ⟨h1, h2, h3, h4, h5, h6, rfl, ?_⟩
  intro hf2
  rw [h8 hf2]
  exact ⟨rfl, rfl⟩

/-- Witness for C9: a concrete run whose output account differs from the
input only in `last_sync_at`. -/
theorem claim9_sync_account_frame_witness :
    testAccount.is_active = true ∧
    (EmailSyncService.sync_emails_for_account testEnv 999 testAccount 50 =
      .ok (⟨1, 1, 0, 0, none⟩, [testRec],
        { testAccount with last_sync_at := some 999 })) ∧
    ({ testAccount with last_sync_at := some 999 } : EmailAccount).refresh_token
      = testAccount.refresh_token ∧
    ({ testAccount with last_sync_at := some 999 } : EmailAccount).last_sync_at
      = some 999 := by
  have hs : EmailSyncService.sync_emails_for_account testEnv 999 testAccount 50 =
      .ok (⟨1, 1, 0, 0, none⟩, [testRec],
        { testAccount with last_sync_at := some 999 }) := by rfl
  have hc := claim9_sync_account_frame testEnv 999 testAccount 50 _ _ _ rfl hs
  exact ⟨rfl, hs, hc.2.2.2.2.1, hc.2.2.2.2.2.2.1⟩

/-- One loop step bumps `processed` by one and exactly one of
`created`/`skipped`/`errors` by one. -/
theorem processOne_counts (env : EmailSyncService.SyncEnv) (acc : EmailAccount)
    (now : Int) (st : EmailSyncService.LoopState) (m : EmailMsg) :
    (EmailSyncService.processOneEmail env acc now st m).stats.processed =
      st.stats.processed + 1 ∧
    (EmailSyncService.processOneEmail env acc now st m).stats.created +
      (EmailSyncService.processOneEmail env acc now st m).stats.skipped +
      (EmailSyncService.processOneEmail env acc now st m).stats.errors =
      st.stats.created + st.stats.skipped + st.stats.errors + 1 := by
  constructor
  · unfold EmailSyncService.processOneEmail
    dsimp only
    repeat' split
    all_goals rfl
  · unfold EmailSyncService.processOneEmail
    dsimp only
    repeat' split
    all_goals (dsimp only; omega)

/-- The loop preserves `processed = created + skipped + errors`. -/
theorem loop_counts (env : EmailSyncService.SyncEnv) (acc : EmailAccount)
    (now : Int) :
    ∀ (emails : List EmailMsg) (st : EmailSyncService.LoopState),
      st.stats.processed = st.stats.created + st.stats.skipped + st.stats.errors →
      (emails.foldl (EmailSyncService.processOneEmail env acc now) st).stats.processed =
        (emails.foldl (EmailSyncService.processOneEmail env acc now) st).stats.created +
        (emails.foldl (EmailSyncService.processOneEmail env acc now) st).stats.skipped +
        (emails.foldl (EmailSyncService.processOneEmail env acc now) st).stats.errors := by
  intro emails
  induction emails with
  | nil => intro st h; simpa using h
  | cons m ms ih =>
    intro st h
    rw [List.foldl_cons]
    apply ih
    have hc := processOne_counts env acc now st m
    omega

/-- C10: on an active account with a successful fetch, every message ends
in exactly one of the three outcome counters, so the returned stats satisfy
`processed = created + skipped + errors`. -/
theorem claim10_sync_counter_invariant (env : EmailSyncService.SyncEnv)
    (now : Int) (acct : EmailAccount) (mr : Nat)
    (s : EmailSyncService.SyncStats) (apps : List AutoDetectedApplication)
    (a' : EmailAccount) (hact : acct.is_active = true)
    (h : EmailSyncService.sync_emails_for_account env now acct mr = .ok (s, apps, a')) :
    s.processed = s.created + s.skipped + s.errors := by
  obtain ⟨acc, emails, hr, hf, hs, -, -⟩ :=
    sync_ok_elim env now acct mr s apps a' hact h
  subst hs
  exact loop_counts env acc now emails
    { stats := {}, created_apps := [], known_ids := env.existingIds } rfl

/-- Witness for C10 on a concrete run (`1 = 1 + 0 + 0`). -/
theorem claim10_sync_counter_invariant_witness :
    testAccount.is_active = true ∧
    (EmailSyncService.sync_emails_for_account testEnv 999 testAccount 50 =
      .ok (⟨1, 1, 0, 0, none⟩, [testRec],
        { testAccount with last_sync_at := some 999 })) ∧
    (⟨1, 1, 0, 0, none⟩ : EmailSyncService.SyncStats).processed =
      (⟨1, 1, 0, 0, none⟩ : EmailSyncService.SyncStats).created +
      (⟨1, 1, 0, 0, none⟩ : EmailSyncService.SyncStats).skipped +
      (⟨1, 1, 0, 0, none⟩ : EmailSyncService.SyncStats).errors := by
  have hs : EmailSyncService.sync_emails_for_account testEnv 999 testAccount 50 =
      .ok (⟨1, 1, 0, 0, none⟩, [testRec],
        { testAccount with last_sync_at := some 999 }) := by rfl
  exact ⟨rfl, hs, claim10_sync_counter_invariant testEnv 999 testAccount 50 _ _ _ rfl hs⟩

/-- Any row appended by one loop step was either already there, or came
from the step's own message: it carries that message's id and a
`detected_at` computed by the email-date rule. -/
theorem processOne_created_mem (env : EmailSyncService.SyncEnv)
    (acc : EmailAccount) (now : Int) (st : EmailSyncService.LoopState)
    (m : EmailMsg) (rec : AutoDetectedApplication)
    (h : rec ∈ (EmailSyncService.processOneEmail env acc now st m).created_apps) :
    rec ∈ st.created_apps ∨
      (rec.email_message_id = m.id ∧
       rec.detected_at = EmailSyncService.detectedAtOf env now m.date) := by
  unfold EmailSyncService.processOneEmail at h
  dsimp only at h
  split at h
  · exact Or.inl h
  · split at h
    · exact Or.inl h
    · split at h
      · split at h
        · exact Or.inl h
        · split at h
          · exact Or.inl h
          · split at h
            · exact Or.inl h
            · rcases List.mem_append.mp h with h | h
              · exact Or.inl h
              · rw [List.mem_singleton] at h
                subst h
                exact Or.inr ⟨rfl, rfl⟩
      · exact Or.inl h

/-- Loop version of `processOne_created_mem`. -/
theorem loop_created_mem (env : EmailSyncService.SyncEnv) (acc : EmailAccount)
    (now : Int) :
    ∀ (emails : List EmailMsg) (st : EmailSyncService.LoopState)
      (rec : AutoDetectedApplication),
      rec ∈ (emails.foldl (EmailSyncService.processOneEmail env acc now) st).created_apps →
      rec ∈ st.created_apps ∨
        ∃ m, m ∈ emails ∧ rec.email_message_id = m.id ∧
          rec.detected_at = EmailSyncService.detectedAtOf env now m.date := by
  intro emails
  induction emails with
  | nil => intro st rec h; exact Or.inl h
  | cons m ms ih =>
    intro st rec h
    rw [List.foldl_cons] at h
    rcases ih _ rec h with h' | ⟨m', hm', h1, h2⟩
    · rcases processOne_created_mem env acc now st m rec h' with h'' | ⟨h1, h2⟩
      · exact Or.inl h''
      · exact Or.inr ⟨m, List.mem_cons_self m ms, h1, h2⟩
    · exact Or.inr ⟨m', List.mem_cons_of_mem m hm', h1, h2⟩

/-- C1: every row persisted by a run carries the id of a fetched message,
and its `detected_at` is that message's parsed date header — made aware via
`timezone.make_aware` when the parse is naive — or the run's ingestion time
when the date is absent or unparseable. -/
theorem claim1_detected_at_rule (env : EmailSyncService.SyncEnv) (now : Int)
    (acct : EmailAccount) (mr : Nat) (s : EmailSyncService.SyncStats)
    (apps : List AutoDetectedApplication) (a' : EmailAccount)
    (emails : List EmailMsg)
    (hact : acct.is_active = true)
    (hf : env.fetch mr = .ok emails)
    (h : EmailSyncService.sync_emails_for_account env now acct mr = .ok (s, apps, a')) :
    ∀ rec ∈ apps, ∃ m, m ∈ emails ∧ rec.email_message_id = m.id ∧
      rec.detected_at =
        (if m.date != "" then
          match env.duParseDT m.date with
          | some p => if p.1 then env.mkAware p.2 else p.2
          | none => now
        else now) := by
  obtain ⟨acc, emails2, hr, hf2, hs, ha, hacc⟩ :=
    sync_ok_elim env now acct mr s apps a' hact h
  rw [hf] at hf2
  injection hf2 with hf2
  subst hf2
  subst ha
  intro rec hrec
  unfold EmailSyncService.runLoop at hrec
  rcases loop_created_mem env acc now emails _ rec hrec with h' | ⟨m, hm, h1, h2⟩
  · exact absurd h' (List.not_mem_nil rec)
  · exact ⟨m, hm, h1, h2⟩

/-- Witness for C1: in the concrete run the message date parses naive to
555, and the stored row has `detected_at = mkAware 555 = 556`. -/
theorem claim1_detected_at_rule_witness :
    testAccount.is_active = true ∧
    testEnv.fetch 50 = .ok [testMsg] ∧
    (EmailSyncService.sync_emails_for_account testEnv 999 testAccount 50 =
      .ok (⟨1, 1, 0, 0, none⟩, [testRec],
        { testAccount with last_sync_at := some 999 })) ∧
    (∃ m, m ∈ [testMsg] ∧ testRec.email_message_id = m.id ∧
      testRec.detected_at =
        (if m.date != "" then
          match testEnv.duParseDT m.date with
          | some p => if p.1 then testEnv.mkAware p.2 else p.2
          | none => (999 : Int)
        else 999)) := by
  have hs : EmailSyncService.sync_emails_for_account testEnv 999 testAccount 50 =
      .ok (⟨1, 1, 0, 0, none⟩, [testRec],
        { testAccount with last_sync_at := some 999 }) := by rfl
  refine ⟨rfl, rfl, hs, ?_⟩
  exact claim1_detected_at_rule testEnv 999 testAccount 50 _ _ _ [testMsg] rfl rfl hs
    testRec (List.mem_singleton_self testRec)

/-- C6: over two active accounts of which exactly the first raises and the
second succeeds, the multi-account driver reports 2 processed, 1 succeeded,
1 failed, captures the failing account's id, address and error string as
the single `errors` entry, and still aggregates the succeeding account's
processed/created counts. -/
theorem claim6_multi_account_isolation (envOf : EmailAccount → EmailSyncService.SyncEnv)
    (now : Int) (a b : EmailAccount) (mr : Nat) (e : String)
    (st : EmailSyncService.SyncStats) (apps : List AutoDetectedApplication)
    (b' : EmailAccount)
    (ha : a.is_active = true) (hb : b.is_active = true)
    (hfa : EmailSyncService.sync_emails_for_account (envOf a) now a mr = .error e)
    (hfb : EmailSyncService.sync_emails_for_account (envOf b) now b mr = .ok (st, apps, b')) :
    EmailSyncService.sync_all_active_accounts envOf now [a, b] mr =
      { accounts_processed := 2, accounts_succeeded := 1, accounts_failed := 1,
        total_emails_processed := st.processed,
        total_detected_created := st.created,
        errors := [⟨a.id, a.email, e⟩] } := by
  unfold EmailSyncService.sync_all_active_accounts
  have hfilter : List.filter (fun x : EmailAccount => x.is_active) [a, b] = [a, b] := by
    simp [List.filter, ha, hb]
  rw [hfilter]
  simp only [List.foldl_cons, List.foldl_nil]
  simp [hfa, hfb]

/-- Second concrete account for the multi-account witness. -/
def testAccountB : EmailAccount := { testAccount with id := 2, email := "v@y.com" }

/-- An environment whose fetch raises (an authentication failure). -/
def testEnvFail : EmailSyncService.SyncEnv :=
  { testEnv with fetch := fun _ => .error "auth error" }

/-- Per-account environments: account 1 hits the failing fetch, every other
account the healthy one. -/
def testEnvOf : EmailAccount → EmailSyncService.SyncEnv :=
  fun acct => if acct.id == 1 then testEnvFail else testEnv

/-- Witness for C6: concrete two-account run, first fetch raising. -/
theorem claim6_multi_account_isolation_witness :
    (EmailSyncService.sync_emails_for_account (testEnvOf testAccount) 999
      testAccount 50 = .error "auth error") ∧
    (EmailSyncService.sync_emails_for_account (testEnvOf testAccountB) 999
      testAccountB 50 =
      .ok (⟨1, 1, 0, 0, none⟩, [testRec],
        { testAccountB with last_sync_at := some 999 })) ∧
    EmailSyncService.sync_all_active_accounts testEnvOf 999
      [testAccount, testAccountB] 50 =
      { accounts_processed := 2, accounts_succeeded := 1, accounts_failed := 1,
        total_emails_processed := 1, total_detected_created := 1,
        errors := [⟨1, "u@x.com", "auth error"⟩] } := by
  have h1 : EmailSyncService.sync_emails_for_account (testEnvOf testAccount) 999
      testAccount 50 = .error "auth error" := by rfl
  have h2 : EmailSyncService.sync_emails_for_account (testEnvOf testAccountB) 999
      testAccountB 50 =
      .ok (⟨1, 1, 0, 0, none⟩, [testRec],
        { testAccountB with last_sync_at := some 999 }) := by rfl
  exact ⟨h1, h2, claim6_multi_account_isolation testEnvOf 999 testAccount
    testAccountB 50 "auth error" _ _ _ rfl rfl h1 h2⟩

/-- Step-level rejection gate: when the processor classifies a message as
`rejection`, a row is only ever created if a persisted `Application` for
that company and owner exists, and with no such `Application` the step
skips and creates nothing. -/
theorem processOne_rejection_gate (env : EmailSyncService.SyncEnv)
    (acc : EmailAccount) (now : Int) (st : EmailSyncService.LoopState)
    (m : EmailMsg) (r : EmailProcessor.ProcOut)
    (hp : env.process m = .ok r)
    (ht : EmailSyncService.normalizedType r.type = "rejection") :
    (∀ rec ∈ (EmailSyncService.processOneEmail env acc now st m).created_apps,
      rec ∈ st.created_apps ∨
        EmailSyncService.hasExistingApplication env.applications acc.user
          rec.company_name = true) ∧
    ((∀ c, r.data.company_name = some c →
        EmailSyncService.hasExistingApplication env.applications acc.user c = false) →
      (EmailSyncService.processOneEmail env acc now st m).stats.skipped =
        st.stats.skipped + 1 ∧
      (EmailSyncService.processOneEmail env acc now st m).stats.created =
        st.stats.created ∧
      (EmailSyncService.processOneEmail env acc now st m).created_apps =
        st.created_apps) := by
  unfold EmailSyncService.processOneEmail
  dsimp only
  rw [hp]
  dsimp only
  rw [ht]
  split
  · exact ⟨fun rec hrec => Or.inl hrec, fun _ => ⟨rfl, rfl, rfl⟩⟩
  · split
    · split
      · exact ⟨fun rec hrec => Or.inl hrec, fun _ => ⟨rfl, rfl, rfl⟩⟩
      · rename_i company hcomp
        split
        · exact ⟨fun rec hrec => Or.inl hrec, fun _ => ⟨rfl, rfl, rfl⟩⟩
        · split
          · exact ⟨fun rec hrec => Or.inl hrec, fun _ => ⟨rfl, rfl, rfl⟩⟩
          · rename_i hgate
            have hex : EmailSyncService.hasExistingApplication env.applications
                acc.user company = true := by
              by_contra hne
              apply hgate
              simp only [Bool.not_eq_true] at hne
              simp [hne]
            constructor
            · intro rec hrec
              rcases List.mem_append.mp hrec with hrec | hrec
              · exact Or.inl hrec
              · rw [List.mem_singleton] at hrec
                subst hrec
                exact Or.inr hex
            · intro hno
              exact absurd hex (by simp [hno company hcomp])
    · exact ⟨fun rec hrec => Or.inl hrec, fun _ => ⟨rfl, rfl, rfl⟩⟩

/-- C3: on a run whose batch is a message the processor classifies as
`rejection`, a `DetectedApplication` is created only when a persisted
`Application` with the same company name (case-insensitively) owned by the
account's user exists; with no such `Application` the run skips the message
and creates nothing. -/
theorem claim3_rejection_requires_existing_application
    (env : EmailSyncService.SyncEnv) (now : Int) (acct : EmailAccount)
    (mr : Nat) (m : EmailMsg) (r : EmailProcessor.ProcOut)
    (s : EmailSyncService.SyncStats) (apps : List AutoDetectedApplication)
    (a' : EmailAccount)
    (hact : acct.is_active = true)
    (hf : env.fetch mr = .ok [m])
    (hp : env.process m = .ok r)
    (ht : EmailSyncService.normalizedType r.type = "rejection")
    (h : EmailSyncService.sync_emails_for_account env now acct mr = .ok (s, apps, a')) :
    (∀ rec ∈ apps,
      EmailSyncService.hasExistingApplication env.applications acct.user
        rec.company_name = true) ∧
    ((∀ c, r.data.company_name = some c →
        EmailSyncService.hasExistingApplication env.applications acct.user c = false) →
      s.skipped = 1 ∧ s.created = 0 ∧ apps = []) := by
  obtain ⟨acc, emails2, hr, hf2, hs, ha, hacc⟩ :=
    sync_ok_elim env now acct mr s apps a' hact h
  rw [hf] at hf2
  injection hf2 with hf2
  subst hf2
  have huser : acc.user = acct.user :=
    (refreshedAccount_frame env now acct acc hr).2.1
  have hstep := processOne_rejection_gate env acc now
    { stats := {}, created_apps := [], known_ids := env.existingIds } m r hp ht
  have hrl : EmailSyncService.runLoop env acc now [m] =
      EmailSyncService.processOneEmail env acc now
        { stats := {}, created_apps := [], known_ids := env.existingIds } m := rfl
  subst hs
  subst ha
  constructor
  · intro rec hrec
    rw [hrl] at hrec
    rcases hstep.1 rec hrec with h' | h'
    · exact absurd h' (List.not_mem_nil rec)
    · rw [huser] at h'
      exact h'
  · intro hno
    have hno' : ∀ c, r.data.company_name = some c →
        EmailSyncService.hasExistingApplication env.applications acc.user c = false := by
      intro c hc
      rw [huser]
      exact hno c hc
    obtain ⟨h1, h2, h3⟩ := hstep.2 hno'
    rw [hrl]
    exact ⟨by simpa using h1, by simpa using h2, by simpa using h3⟩

/-- A concrete rejection verdict for a company with no tracked application. -/
def testProcRej : EmailProcessor.ProcOut :=
  { type := some "rejection", confidence := mkRat 80 100,
    data := { company_name := some "Acme" }, needs_ai := some false,
    source := "pattern", used_ai := false, error := none }

/-- Environment whose processor reports `testProcRej`; its `applications`
store is empty. -/
def testEnvRej : EmailSyncService.SyncEnv :=
  { testEnv with process := fun _ => .ok testProcRej }

/-- Witness for C3: the concrete rejection run skips
(`skipped = 1, created = 0`) because no `Application` for "Acme" exists. -/
theorem claim3_rejection_requires_existing_application_witness :
    (EmailSyncService.sync_emails_for_account testEnvRej 999 testAccount 50 =
      .ok (⟨1, 0, 1, 0, none⟩, [],
        { testAccount with last_sync_at := some 999 })) ∧
    (⟨1, 0, 1, 0, none⟩ : EmailSyncService.SyncStats).skipped = 1 ∧
    (⟨1, 0, 1, 0, none⟩ : EmailSyncService.SyncStats).created = 0 := by
  have hs : EmailSyncService.sync_emails_for_account testEnvRej 999 testAccount 50 =
      .ok (⟨1, 0, 1, 0, none⟩, [],
        { testAccount with last_sync_at := some 999 }) := by rfl
  have hc := claim3_rejection_requires_existing_application testEnvRej 999
    testAccount 50 testMsg testProcRej _ _ _ rfl rfl rfl rfl hs
  have hb := hc.2 (fun c hc' => by
    simp only [EmailSyncService.hasExistingApplication]
    rfl)
  exact ⟨hs, hb.1, hb.2.1⟩

/-- A message whose id is already among the known dedup keys is counted as
skipped and leaves the state otherwise unchanged. -/
theorem processOne_duplicate (env : EmailSyncService.SyncEnv)
    (acc : EmailAccount) (now : Int) (ids : List String) (m : EmailMsg)
    (hmem : ids.contains m.id = true) :
    EmailSyncService.processOneEmail env acc now
      { stats := {}, created_apps := [], known_ids := ids } m =
      { stats := ⟨1, 0, 1, 0, none⟩, created_apps := [], known_ids := ids } := by
  unfold EmailSyncService.processOneEmail
  dsimp only
  rw [hmem]
  rfl

/-- From the initial loop state, one step creates either nothing or exactly
one row, and a created row carries the message's id. -/
theorem processOne_init_created (env : EmailSyncService.SyncEnv)
    (acc : EmailAccount) (now : Int) (ids : List String) (m : EmailMsg) :
    ((EmailSyncService.processOneEmail env acc now
        { stats := {}, created_apps := [], known_ids := ids } m).stats.created = 0 ∧
     (EmailSyncService.processOneEmail env acc now
        { stats := {}, created_apps := [], known_ids := ids } m).created_apps = []) ∨
    ((EmailSyncService.processOneEmail env acc now
        { stats := {}, created_apps := [], known_ids := ids } m).stats.created = 1 ∧
     ∃ rec, (EmailSyncService.processOneEmail env acc now
        { stats := {}, created_apps := [], known_ids := ids } m).created_apps = [rec] ∧
       rec.email_message_id = m.id) := by
  unfold EmailSyncService.processOneEmail
  dsimp only
  split
  · exact Or.inl ⟨rfl, rfl⟩
  · split
    · exact Or.inl ⟨rfl, rfl⟩
    · split
      · split
        · exact Or.inl ⟨rfl, rfl⟩
        · split
          · exact Or.inl ⟨rfl, rfl⟩
          · split
            · exact Or.inl ⟨rfl, rfl⟩
            · exact Or.inr ⟨rfl, _, rfl, rfl⟩
      · exact Or.inl ⟨rfl, rfl⟩

/-- A successful refresh outcome keeps later runs refreshable: rewriting
`last_sync_at` on the refreshed account cannot make the refresh step fail. -/
theorem refreshedAccount_ok_again (env : EmailSyncService.SyncEnv) (now : Int)
    (acct acc : EmailAccount) (t : Option Int)
    (h : EmailSyncService.refreshedAccount env now acct = .ok acc) :
    ∃ acc2, EmailSyncService.refreshedAccount env now
      { acc with last_sync_at := t } = .ok acc2 := by
  unfold EmailSyncService.refreshedAccount at h ⊢
  split at h
  · split at h
    · exact absurd h (by simp)
    · split
      · exact ⟨_, rfl⟩
      · exact ⟨_, rfl⟩
  · rename_i hcond
    injection h with h
    subst h
    rw [if_neg]
    · exact ⟨_, rfl⟩
    · exact hcond

/-- C2: when a run over a single message persists a row (created = 1), that
row carries the message's external id, and a second run over the same
message — against the store now holding that id — deduplicates: it counts
the message as skipped (`processed 1, created 0, skipped 1, errors 0`) and
writes no second row, so exactly one row exists for that
(account, message-id) pair. -/
theorem claim2_sync_idempotent (env : EmailSyncService.SyncEnv) (now : Int)
    (acct : EmailAccount) (mr : Nat) (m : EmailMsg)
    (s1 : EmailSyncService.SyncStats) (apps1 : List AutoDetectedApplication)
    (acc1 : EmailAccount)
    (hact : acct.is_active = true)
    (hf : env.fetch mr = .ok [m])
    (h1 : EmailSyncService.sync_emails_for_account env now acct mr = .ok (s1, apps1, acc1))
    (hc : s1.created = 1) :
    apps1.map (fun rec => rec.email_message_id) = [m.id] ∧
    ∃ acc2, EmailSyncService.sync_emails_for_account
        { env with existingIds :=
            env.existingIds ++ apps1.map (fun rec => rec.email_message_id) }
        now acc1 mr = .ok (⟨1, 0, 1, 0, none⟩, [], acc2) := by
  obtain ⟨acc, emails2, hr, hf2, hs, ha, hacc⟩ :=
    sync_ok_elim env now acct mr s1 apps1 acc1 hact h1
  rw [hf] at hf2
  injection hf2 with hf2
  subst hf2
  have hrl : EmailSyncService.runLoop env acc now [m] =
      EmailSyncService.processOneEmail env acc now
        { stats := {}, created_apps := [], known_ids := env.existingIds } m := rfl
  subst hs
  subst ha
  rcases processOne_init_created env acc now env.existingIds m with
    ⟨hc0, -⟩ | ⟨-, rec, happ, hid⟩
  · rw [hrl, hc0] at hc
    cases hc
  · have hmap : (EmailSyncService.runLoop env acc now [m]).created_apps.map
        (fun rec => rec.email_message_id) = [m.id] := by
      rw [hrl, happ]
      simp [hid]
    refine ⟨hmap, ?_⟩
    subst hacc
    set l2 : List String := env.existingIds ++ (EmailSyncService.runLoop env acc now [m]).created_apps.map (fun rec => rec.email_message_id) with hl2
    obtain ⟨acc2', hok⟩ := refreshedAccount_ok_again env now acct acc (some now) hr
    have hact2 : ({ acc with last_sync_at := some now } : EmailAccount).is_active = true := by
      show acc.is_active = true
      rw [(refreshedAccount_frame env now acct acc hr).2.2.2.2.2.1]
      exact hact
    refine ⟨{ acc2' with last_sync_at := some now }, ?_⟩
    have hok2 : EmailSyncService.refreshedAccount { env with existingIds := l2 } now { acc with last_sync_at := some now } = .ok acc2' := hok
    have hdup : l2.contains m.id = true := by
      rw [hl2, hmap]
      simp
    have hrl2 : EmailSyncService.runLoop { env with existingIds := l2 } acc2' now [m] = { stats := ⟨1, 0, 1, 0, none⟩, created_apps := [], known_ids := l2 } :=
      processOne_duplicate { env with existingIds := l2 } acc2' now l2 m hdup
    unfold EmailSyncService.sync_emails_for_account
    rw [if_neg (by rw [hact2]; simp : ¬((!({ acc with last_sync_at := some now } : EmailAccount).is_active) = true))]
    rw [hok2]
    dsimp only
    rw [show ({ env with existingIds := l2 } : EmailSyncService.SyncEnv).fetch mr = .ok [m] from hf]
    dsimp only
    rw [hrl2]

/-- Witness for C2: the concrete run persists the row for "m1"; rerunning
against a store containing "m1" skips and writes nothing. -/
theorem claim2_sync_idempotent_witness :
    (EmailSyncService.sync_emails_for_account testEnv 999 testAccount 50 =
      .ok (⟨1, 1, 0, 0, none⟩, [testRec],
        { testAccount with last_sync_at := some 999 })) ∧
    [testRec].map (fun rec => rec.email_message_id) = [testMsg.id] ∧
    (∃ acc2, EmailSyncService.sync_emails_for_account
        { testEnv with existingIds :=
            testEnv.existingIds ++ [testRec].map (fun rec => rec.email_message_id) }
        999 { testAccount with last_sync_at := some 999 } 50 =
      .ok (⟨1, 0, 1, 0, none⟩, [], acc2)) := by
  have hs : EmailSyncService.sync_emails_for_account testEnv 999 testAccount 50 =
      .ok (⟨1, 1, 0, 0, none⟩, [testRec],
        { testAccount with last_sync_at := some 999 }) := by rfl
  have h := claim2_sync_idempotent testEnv 999 testAccount 50 testMsg
    ⟨1, 1, 0, 0, none⟩ [testRec] { testAccount with last_sync_at := some 999 }
    rfl rfl hs rfl
  exact ⟨hs, h.1, h.2⟩

/-- C5 counterexample: the claim "for every sender at a personal-provider
domain, `company_name` is never that provider's name" is false as stated —
content-based extraction runs before the sender-domain screen, so an email
whose text names the provider as the company yields it: with sender
`user@gmail.com` (a gmail-domain sender) and subject
"Thank you for applying to Gmail!", `classify_email` extracts
`company_name = "Gmail"`. -/
theorem claim5_company_extraction_counterexample :
    pyStartsWith (pyLower ((pySplitChar '@' "user@gmail.com").getD 1 "")) "gmail" = true ∧
    (EmailParser.classify_email (fun _ => none) "Thank you for applying to Gmail!" ""
      "user@gmail.com" "").data.company_name = some "Gmail" := by
  exact ⟨rfl, rfl⟩

/-- C5 (amended): the sender-derived fallback never produces a
personal-provider or job-board name — whenever content extraction finds
nothing and the sender's domain starts with a personal-email provider or a
known job-board domain, `company_name` is `none`; and for senders at an
`indeed`-prefixed domain, `where_applied` is "Indeed".  (Content-based
extraction may still return whatever company the email text itself names.) -/
theorem claim5_company_extraction_amended (subject body sender : String)
    (hcontent : EmailParser.extract_company_from_content subject body = none) :
    ((EmailParser.PERSONAL_DOMAINS ++ EmailParser.JOB_BOARD_DOMAINS).any
        (fun p => pyStartsWith (pyLower ((pySplitChar '@' sender).getD 1 "")) p) = true →
      EmailParser.extract_company_name subject body sender = none) ∧
    (sender.data.contains '@' = true →
      pyStartsWith (pyLower ((pySplitChar '@' sender).getD 1 "")) "indeed" = true →
      EmailParser.extract_where_applied sender = some "Indeed") := by
  constructor
  · intro hdom
    unfold EmailParser.extract_company_name
    rw [hcontent]
    dsimp only
    split
    · rfl
    · rw [List.any_append, Bool.or_eq_true] at hdom
      rcases hdom with hp | hj
      · rw [if_pos hp]
      · by_cases hpp : EmailParser.PERSONAL_DOMAINS.any
            (fun p => pyStartsWith (pyLower ((pySplitChar '@' sender).getD 1 "")) p) = true
        · rw [if_pos hpp]
        · rw [if_neg hpp, if_pos hj]
  · intro hat hind
    have hne : (sender == "") = false := by
      cases hs0 : sender == ""
      · rfl
      · exfalso
        have hempty : sender = "" := eq_of_beq hs0
        rw [hempty] at hat
        exact absurd hat (by simp)
    unfold EmailParser.extract_where_applied
    rw [hne, hat]
    simp only [Bool.not_true, Bool.or_false, if_false]
    have hfb : EmailParser.firstBoard EmailParser.JOB_BOARD_DOMAINS
        (pyLower ((pySplitChar '@' sender).getD 1 "")) = some (pyTitle "indeed") := by
      unfold EmailParser.JOB_BOARD_DOMAINS EmailParser.firstBoard
      rw [if_pos hind]
    rw [hfb]
    decide

/-- Witness for the amended C5: with no content hit, a gmail sender yields
no company name, and an indeed sender yields `where_applied = "Indeed"`. -/
theorem claim5_company_extraction_amended_witness :
    EmailParser.extract_company_from_content "Hello" "" = none ∧
    EmailParser.extract_company_name "Hello" "" "user@gmail.com" = none ∧
    EmailParser.extract_where_applied "noreply@indeed.com" = some "Indeed" := by
  have hc : EmailParser.extract_company_from_content "Hello" "" = none := by rfl
  have h1 := claim5_company_extraction_amended "Hello" "" "user@gmail.com" hc
  have h2 := claim5_company_extraction_amended "Hello" "" "noreply@indeed.com" hc
  exact ⟨hc, h1.1 (by rfl), h2.2 (by rfl) (by rfl)⟩
